import Mathlib

/-! Shallow embedding of webusb.py: the descriptor-decoding core of the
WebUSB / Microsoft-OS descriptor inspection tool. The libusb control-transfer
gateway is modelled as an oracle packaged in a `Device` value; every reader is
a pure function from the device oracle to the list of observable events
(control transfers issued, lines printed, buffers dumped, resources
acquired/released) together with its Python-level outcome. -/

namespace WebUsb

def LIBUSB_ENDPOINT_IN : Nat := 0x80

def LIBUSB_REQUEST_TYPE_VENDOR : Nat := 0x40

def LIBUSB_RECIPIENT_DEVICE : Nat := 0x00

def LIBUSB_DT_STRING : Nat := 0x03

def LIBUSB_BT_USB_2_0_EXTENSION : Nat := 0x02

def LIBUSB_BT_SS_USB_DEVICE_CAPABILITY : Nat := 0x03

def LIBUSB_BT_CONTAINER_ID : Nat := 0x04

def MS_OS_DESC_STRING_INDEX : Nat := 0xEE

def MS_OS_DESC_STRING_LENGTH : Nat := 0x12

def MS_OS_DESC_VENDOR_CODE_OFFSET : Nat := 0x10

/-- The 16-byte `ms_os_desc_string` signature buffer from webusb.py:
length byte 0x12, string-descriptor type, then "MSFT100" as UTF-16-LE pairs. -/
def ms_os_desc_string : List Nat :=
  [MS_OS_DESC_STRING_LENGTH, LIBUSB_DT_STRING,
   0x4D, 0, 0x53, 0, 0x46, 0, 0x54, 0, 0x31, 0, 0x30, 0, 0x30, 0]

/-- Outcome of a Python computation: a normal return value, or an uncaught
exception (here: the IndexError a ctypes array raises on an out-of-range
index). -/
inductive PyResult (α : Type) where
  | ok (a : α)
  | exn
  deriving Repr, DecidableEq

/-- Parameters of one libusb `control_transfer` call. -/
structure CtrlReq where
  bmRequestType : Nat
  bRequest : Nat
  wValue : Nat
  wIndex : Nat
  wLength : Nat
  deriving Repr, DecidableEq

/-- Result of one gateway exchange: the return code `r` (byte count or a
negative libusb error) and the bytes the device wrote into the buffer. -/
structure Xfer where
  ret : Int
  data : List Nat

/-- Byte read `buf[i]` with ctypes c_uint8 semantics (out-of-range reads are
never produced by this helper itself; callers guard indexing where the source
can raise). -/
def byteAt (l : List Nat) (i : Nat) : Nat := l.getD i 0 % 256

/-- Contents of a freshly allocated `(c_uint8 * len)()` buffer after the
device wrote `data` into it: the first `len` bytes of `data` reduced mod 256,
zero-padded up to exactly `len` entries. -/
def fillBuf (len : Nat) (data : List Nat) : List Nat :=
  let d := (data.take len).map (· % 256)
  d ++ List.replicate (len - d.length) 0

/-- Little-endian 16-bit read at byte offset `i`. -/
def le16At (l : List Nat) (i : Nat) : Nat :=
  byteAt l i + 256 * byteAt l (i + 1)

/-- Little-endian 32-bit read at byte offset `i`. -/
def le32At (l : List Nat) (i : Nat) : Nat :=
  byteAt l i + 256 * byteAt l (i + 1) + 65536 * byteAt l (i + 2) +
    16777216 * byteAt l (i + 3)

/-- The C `memcmp` loop of webusb.py: first nonzero byte difference over the
first `size` indices, else 0.  Fuel equals the remaining count, so the
recursion is structural. -/
def memcmpAux (a b : List Nat) : Nat → Nat → Int
  | _, 0 => 0
  | i, fuel + 1 =>
    let d : Int := (byteAt a i : Int) - (byteAt b i : Int)
    if d = 0 then memcmpAux a b (i + 1) fuel else d

/-- memcmp(a, b, size) as in webusb.py. -/
def memcmp (a b : List Nat) (size : Nat) : Int := memcmpAux a b 0 size

/-- Uppercase hexadecimal digit. -/
def hexDigit (n : Nat) : Char :=
  if n < 10 then Char.ofNat (48 + n) else Char.ofNat (55 + n)

/-- Hex digit expansion with explicit fuel (fuel `n+1` always suffices). -/
def hexCore : Nat → Nat → List Char → List Char
  | 0, _, acc => acc
  | fuel + 1, n, acc =>
    if n < 16 then hexDigit n :: acc
    else hexCore fuel (n / 16) (hexDigit (n % 16) :: acc)

/-- Uppercase hexadecimal rendering of a natural number, no leading zeros. -/
def toHex (n : Nat) : String := String.mk (hexCore (n + 1) n [])

/-- Python "{:0wX}" formatting: uppercase hex left-padded with zeros to
width `w`. -/
def hexPad (w n : Nat) : String :=
  String.mk (List.replicate (w - (toHex n).length) '0') ++ toHex n

/-- Two-digit uppercase hex of a byte, Python "{:02X}". -/
def byteHex (b : Nat) : String := hexPad 2 b

/-- uuid_to_string from webusb.py: byte groups [3,2,1,0]-[5,4]-[7,6]-[8,9]-
[10..15], two uppercase hex digits per byte, hyphen-joined, brace-wrapped. -/
def uuid_to_string (uuid : List Nat) : String :=
  "\x7b" ++ byteHex (byteAt uuid 3) ++ byteHex (byteAt uuid 2) ++
    byteHex (byteAt uuid 1) ++ byteHex (byteAt uuid 0) ++
  "-" ++ byteHex (byteAt uuid 5) ++ byteHex (byteAt uuid 4) ++
  "-" ++ byteHex (byteAt uuid 7) ++ byteHex (byteAt uuid 6) ++
  "-" ++ byteHex (byteAt uuid 8) ++ byteHex (byteAt uuid 9) ++
  "-" ++ byteHex (byteAt uuid 10) ++ byteHex (byteAt uuid 11) ++
    byteHex (byteAt uuid 12) ++ byteHex (byteAt uuid 13) ++
    byteHex (byteAt uuid 14) ++ byteHex (byteAt uuid 15) ++ "\x7d"

def WEBUSB_PLATFORM_CAPABILITY_UUID : String :=
  "\x7b3408B638-09A9-47A0-8BFD-A0768815B665\x7d"

def MS_OS_20_PLATFORM_CAPABILITY_UUID : String :=
  "\x7bD8DD60DF-4589-4CC7-9CD2-659D9E648A9F\x7d"

/-- Observable events of a run: stdout lines, stderr output, transport error
reports, control transfers, convenience string-descriptor reads, hex dumps,
and resource acquisition/release. -/
inductive Ev where
  | line (s : String)
  | err (s : String)
  | transportErr (code : Int)
  | xfer (c : CtrlReq)
  | gsdReq (index langid len : Nat)
  | strReq (index : Nat)
  | strLine (key : String) (data : List Nat)
  | dump (data : List Nat)
  | close
  | getBos
  | freeBos
  deriving Repr, DecidableEq

/-- A device as seen through the libusb oracle: every call the source makes is
a field. -/
structure Device where
  openOk : Bool
  busNumber : Nat
  portRet : Int
  portNumbers : List Nat
  speedRet : Int
  devDescRet : Int
  bLength : Nat
  bDeviceClass : Nat
  idVendor : Nat
  idProduct : Nat
  bcdDevice : Nat
  iManufacturer : Nat
  iProduct : Nat
  iSerialNumber : Nat
  strAscii : Nat → Xfer
  ctrl : CtrlReq → Xfer
  getStringDesc : Nat → Nat → Nat → Xfer
  bosOk : Bool
  bosCaps : List (List Nat)
  usb20ExtAttrs : List Nat → Option Nat
  ssCapFields : List Nat → Option (Nat × Nat × Nat)
  containerIdBytes : List Nat → Option (List Nat)

/-- The GET_DESCRIPTOR control request for the OS String Descriptor at index
0xEE, requesting `len` bytes. -/
def osStringReq (len : Nat) : CtrlReq :=
  { bmRequestType := LIBUSB_ENDPOINT_IN
    bRequest := 0x06
    wValue := (0x03 <<< 8) ||| 0xEE
    wIndex := 0x0000
    wLength := len }

/-- A vendor IN request with bRequest = `vc`, wValue = 0, wIndex = `idx`,
requesting `len` bytes. -/
def vendorReq (vc idx len : Nat) : CtrlReq :=
  { bmRequestType :=
      LIBUSB_ENDPOINT_IN ||| LIBUSB_REQUEST_TYPE_VENDOR ||| LIBUSB_RECIPIENT_DEVICE
    bRequest := vc
    wValue := 0x0000
    wIndex := idx
    wLength := len }

/-- Fallback path of get_vendor_code_from_os_string_descriptor: a
get_string_descriptor read of 18 bytes at index 0xEE, compared against the
16-byte signature with memcmp over sizeof(ms_os_desc_string) = 16 bytes. -/
def os_string_fallback (dev : Device) (ev : List Ev) :
    List Ev × PyResult (Option Nat) :=
  let x := dev.getStringDesc MS_OS_DESC_STRING_INDEX 0 MS_OS_DESC_STRING_LENGTH
  let ev1 := ev ++ [Ev.gsdReq MS_OS_DESC_STRING_INDEX 0 MS_OS_DESC_STRING_LENGTH]
  let desc := fillBuf MS_OS_DESC_STRING_LENGTH x.data
  if x.ret = (MS_OS_DESC_STRING_LENGTH : Int) ∧ memcmp ms_os_desc_string desc 16 = 0 then
    (ev1 ++ [Ev.dump desc], PyResult.ok (some (byteAt desc MS_OS_DESC_VENDOR_CODE_OFFSET)))
  else
    (ev1, PyResult.ok none)

/-- get_vendor_code_from_os_string_descriptor from webusb.py.  First path:
read 4 header bytes, take the declared length from byte 0, re-request that
many bytes with identical parameters, and index the buffer at fixed offset
0x10 (which raises IndexError when the declared length is 16 or less).
When either read of the first path returns a count different from the one
requested, control falls through to the fallback path. -/
def get_vendor_code_from_os_string_descriptor (dev : Device) :
    List Ev × PyResult (Option Nat) :=
  let req1 := osStringReq 4
  let x1 := dev.ctrl req1
  let ev1 := [Ev.line "  Reading OS String Descriptor", Ev.xfer req1]
  if x1.ret = (4 : Int) then
    let length := byteAt (fillBuf 4 x1.data) 0
    let req2 := osStringReq length
    let x2 := dev.ctrl req2
    let ev2 := ev1 ++ [Ev.xfer req2]
    if x2.ret = (length : Int) then
      let desc := fillBuf length x2.data
      let ev3 := ev2 ++ [Ev.dump desc]
      if h : MS_OS_DESC_VENDOR_CODE_OFFSET < desc.length then
        (ev3, PyResult.ok (some (desc.get ⟨MS_OS_DESC_VENDOR_CODE_OFFSET, h⟩)))
      else
        (ev3, PyResult.exn)
    else
      os_string_fallback dev ev2
  else
    os_string_fallback dev ev1

/-- The Extended Compat ID phase of read_ms_os_10_descriptors: an 8-byte
header read at wIndex = 0x0004, then a full read at the little-endian 32-bit
length decoded from byte offset 0, with identical parameters. -/
def read_extended_compat_id (dev : Device) (vc : Nat) : List Ev :=
  let req1 := vendorReq vc 0x0004 8
  let x1 := dev.ctrl req1
  let ev1 := [Ev.line "  Reading Extended Compat ID OS Feature Descriptor",
              Ev.xfer req1]
  if x1.ret ≠ (8 : Int) then
    ev1 ++ [Ev.line "    Extended Compat ID OS Feature Descriptor is not found"]
  else
    let length := le32At (fillBuf 8 x1.data) 0
    let req2 := vendorReq vc 0x0004 length
    let x2 := dev.ctrl req2
    let ev2 := ev1 ++ [Ev.xfer req2]
    if x2.ret ≠ (length : Int) then
      ev2 ++ [Ev.line "    Extended Compat ID OS Feature Descriptor is not found"]
    else
      ev2 ++ [Ev.dump (fillBuf length x2.data)]

/-- read_ms_os_10_descriptors from webusb.py.  The vendor code is tested with
Python truthiness, so both None and 0 take the not-found branch. -/
def read_ms_os_10_descriptors (dev : Device) : List Ev × PyResult Unit :=
  let ev0 : List Ev := [Ev.line "\nReading MS OS 1.0 Descriptors\n"]
  let r := get_vendor_code_from_os_string_descriptor dev
  match r.2 with
  | PyResult.exn => (ev0 ++ r.1, PyResult.exn)
  | PyResult.ok none =>
      (ev0 ++ r.1 ++ [Ev.line "    OS String Descriptor is not found"], PyResult.ok ())
  | PyResult.ok (some 0) =>
      (ev0 ++ r.1 ++ [Ev.line "    OS String Descriptor is not found"], PyResult.ok ())
  | PyResult.ok (some (vc + 1)) =>
      (ev0 ++ r.1 ++ read_extended_compat_id dev (vc + 1), PyResult.ok ())

/-- read_ms_os_20_descriptors from webusb.py: a 10-byte descriptor-set header
read at wIndex = 0x0007, then a full read at the little-endian 16-bit length
decoded from byte offset 8, with identical parameters. -/
def read_ms_os_20_descriptors (dev : Device) (vc : Nat) : List Ev :=
  let req1 := vendorReq vc 0x0007 10
  let x1 := dev.ctrl req1
  let ev1 := [Ev.line "\nReading MS OS 2.0 descriptors\n",
              Ev.line "  Reading MS OS 2.0 descriptor set header",
              Ev.xfer req1]
  if x1.ret ≠ (10 : Int) then
    ev1 ++ [Ev.line "  Not found"]
  else
    let hdr := fillBuf 10 x1.data
    let ev2 := ev1 ++ [Ev.dump hdr]
    let length := le16At hdr 8
    let req2 := vendorReq vc 0x0007 length
    let x2 := dev.ctrl req2
    let ev3 := ev2 ++ [Ev.xfer req2]
    if x2.ret ≠ (length : Int) then
      ev3 ++ [Ev.line "  Not found"]
    else
      ev3 ++ [Ev.dump (fillBuf length x2.data)]

/-- The UUID field of a platform capability descriptor: 16 bytes at offset 4
of the raw capability bytes. -/
def capUuid (cap : List Nat) : List Nat := (cap.drop 4).take 16

/-- Body of the BOS walk loop in test_device.  Only capability type 0x05 is
handled (the print_device_cap call in the source is commented out); the
platform-capability branch dispatches on the formatted UUID, reading the
MS OS 2.0 vendor code at byte offset 26 and the WebUSB vendor code at byte
offset 22 of the reinterpreted raw bytes. -/
def bos_cap_step (dev : Device) (cap : List Nat) : List Ev :=
  if byteAt cap 2 = 0x05 then
    let uuid := uuid_to_string (capUuid cap)
    if uuid = MS_OS_20_PLATFORM_CAPABILITY_UUID then
      [Ev.line "  MS OS 2.0 Platform Capability Descriptor",
       Ev.line ("    UUID: " ++ uuid),
       Ev.line ("    VendorCode: 0x" ++ byteHex (byteAt cap 26))] ++
      read_ms_os_20_descriptors dev (byteAt cap 26)
    else if uuid = WEBUSB_PLATFORM_CAPABILITY_UUID then
      [Ev.line "  WebUSB Platform Capability UUID",
       Ev.line ("    UUID: " ++ uuid),
       Ev.line ("    VendorCode: 0x" ++ byteHex (byteAt cap 22))]
    else
      [Ev.line ("    UUID: " ++ uuid)]
  else
    []

/-- print_device_cap from webusb.py (present in the source but its only call
site is commented out).  Typed accessors are modelled as oracles returning
none when libusb hands back a null pointer, in which case the branch prints
nothing. -/
def print_device_cap (dev : Device) (cap : List Nat) : List Ev :=
  if byteAt cap 2 = LIBUSB_BT_USB_2_0_EXTENSION then
    match dev.usb20ExtAttrs cap with
    | some attrs =>
        [Ev.line "    USB 2.0 extension:",
         Ev.line ("      attributes             : " ++ hexPad 2 attrs)]
    | none => []
  else if byteAt cap 2 = LIBUSB_BT_SS_USB_DEVICE_CAPABILITY then
    match dev.ssCapFields cap with
    | some (attrs, speeds, functionality) =>
        [Ev.line "    USB 3.0 capabilities:",
         Ev.line ("      attributes             : " ++ hexPad 2 attrs),
         Ev.line ("      supported speeds       : " ++ hexPad 4 speeds),
         Ev.line ("      supported functionality: " ++ hexPad 2 functionality)]
    | none => []
  else if byteAt cap 2 = LIBUSB_BT_CONTAINER_ID then
    match dev.containerIdBytes cap with
    | some cid =>
        [Ev.line ("    Container ID:\n      " ++ uuid_to_string cid)]
    | none => []
  else if byteAt cap 2 = 0x05 then
    [Ev.line "    Platform Capability Descriptor"]
  else
    [Ev.line ("    Unknown BOS device capability " ++ byteHex (byteAt cap 2) ++ ":")]

def speed_name : List String :=
  ["Unknown",
   "1.5 Mbit/s (USB LowSpeed)",
   "12 Mbit/s (USB FullSpeed)",
   "480 Mbit/s (USB HighSpeed)",
   "5000 Mbit/s (USB SuperSpeed)"]

/-- The port-path rendering "p0->p1->...->pn" of the first `r` hub port
numbers. -/
def port_path_string (ports : List Nat) (r : Nat) : String :=
  String.intercalate "->" ((ports.take r).map toString)

/-- Bus/port/speed print section of test_device. -/
def device_props_events (dev : Device) : List Ev :=
  let portEvs :=
    if 0 < dev.portRet then
      [Ev.line "\nDevice properties:",
       Ev.line ("        bus number: " ++ toString dev.busNumber),
       Ev.line ("         port path: " ++
         port_path_string dev.portNumbers dev.portRet.toNat ++ " (from root hub)")]
    else []
  let sp := if dev.speedRet < 0 ∨ 4 < dev.speedRet then 0 else dev.speedRet.toNat
  portEvs ++ [Ev.line ("             speed: " ++ speed_name.getD sp "")]

/-- Device-descriptor field prints of test_device. -/
def devdesc_print_events (dev : Device) : List Ev :=
  [Ev.line ("            length: " ++ toString dev.bLength),
   Ev.line ("      device class: " ++ toString dev.bDeviceClass),
   Ev.line ("           VID:PID: " ++ hexPad 4 dev.idVendor ++ ":" ++ hexPad 4 dev.idProduct),
   Ev.line ("         bcdDevice: " ++ hexPad 4 dev.bcdDevice)]

/-- One string-descriptor fetch of test_device: a zero index is skipped, a
positive return count prints the first `r` buffer bytes. -/
def string_desc_read (dev : Device) (key : String) (idx : Nat) : List Ev :=
  if idx = 0 then []
  else
    let x := dev.strAscii idx
    [Ev.strReq idx] ++
      (if 0 < x.ret then [Ev.strLine key (fillBuf (min x.ret.toNat 128) x.data)] else [])

/-- String-descriptor section of test_device, in dict insertion order. -/
def string_desc_events (dev : Device) : List Ev :=
  [Ev.line "\nReading string descriptors:"] ++
  string_desc_read dev "Manufacturer" dev.iManufacturer ++
  string_desc_read dev "Product" dev.iProduct ++
  string_desc_read dev "Serial Number" dev.iSerialNumber

/-- test_device from webusb.py.  The try/finally guarantees the close event on
every path after a successful open, including the uncaught-IndexError path out
of the MS OS 1.0 reader; the BOS structure is freed after the walk loop. -/
def test_device (dev : Device) : List Ev × PyResult Int :=
  if dev.openOk = false then
    ([Ev.err "  Failed.\n"], PyResult.ok (-1))
  else
    let e1 := device_props_events dev ++ [Ev.line "\nReading device descriptor:"]
    if dev.devDescRet < 0 then
      (e1 ++ [Ev.transportErr dev.devDescRet, Ev.close], PyResult.ok (-1))
    else
      let e2 := e1 ++ devdesc_print_events dev ++ string_desc_events dev
      match read_ms_os_10_descriptors dev with
      | (evs10, PyResult.exn) => (e2 ++ evs10 ++ [Ev.close], PyResult.exn)
      | (evs10, PyResult.ok _) =>
        let e3 := e2 ++ evs10 ++ [Ev.line "\nReading BOS descriptor: "]
        if dev.bosOk then
          let e4 := e3 ++ [Ev.getBos, Ev.line (toString dev.bosCaps.length)]
          let e5 := e4 ++ (dev.bosCaps.map (bos_cap_step dev)).flatten
          (e5 ++ [Ev.freeBos, Ev.close], PyResult.ok 0)
        else
          (e3 ++ [Ev.line "no descriptor", Ev.close], PyResult.ok 0)

/-- Python s.find(char) >= 0 for the colon, over the character list. -/
def containsColon (s : String) : Bool := s.data.any (fun c => c == ':')

/-- Structural splitter over the character list. -/
def splitColonAux : List Char → List Char → List String
  | [], acc => [String.mk acc.reverse]
  | c :: cs, acc =>
    if c = ':' then String.mk acc.reverse :: splitColonAux cs []
    else splitColonAux cs (c :: acc)

/-- Python s.split(str-colon) over the character list. -/
def splitOnColon (s : String) : List String := splitColonAux s.data []

/-- Value of one hexadecimal digit character, if any. -/
def hexDigitVal (c : Char) : Option Nat :=
  if '0' ≤ c ∧ c ≤ '9' then some (c.toNat - 48)
  else if 'a' ≤ c ∧ c ≤ 'f' then some (c.toNat - 87)
  else if 'A' ≤ c ∧ c ≤ 'F' then some (c.toNat - 55)
  else none

/-- Python int(s, 16) on a plain hex-digit string: none models the ValueError
raised on anything unparsable. -/
def hexParse (s : String) : Option Nat :=
  if s.isEmpty then none
  else
    s.data.foldl
      (fun acc c =>
        match acc, hexDigitVal c with
        | some v, some d => some (16 * v + d)
        | _, _ => none)
      (some 0)

/-- Process-level collaborators of main: the libusb init return code, the
reported libusb version, and the device the inspection will see. -/
structure Proc where
  initRet : Int
  vMajor : Nat
  vMinor : Nat
  vMicro : Nat
  vNano : Nat
  dev : Device

def usageOf (prog : String) : String :=
  "Usage: python3 " ++ prog ++ " [-d] VID:PID"

/-- main from webusb.py: argument checks (usage goes through print, i.e.
stdout), hex VID/PID parsing (a parse failure is an uncaught ValueError,
exit code 1), the version line, init, then test_device whose return value is
discarded; normal completion falls off the end of main, exit code 0. -/
def main (argv : List String) (p : Proc) : List Ev × Int :=
  let usage := usageOf (argv.headD "")
  let argc := argv.length
  if argc < 2 ∨ 3 < argc then
    ([Ev.line usage], 1)
  else if argc = 3 ∧ argv.getD 1 "" ≠ "-d" then
    ([Ev.line usage], 1)
  else
    let last := argv.getLastD ""
    if ¬ (containsColon last) then
      ([Ev.line "Invalid VID & PID", Ev.line usage], 1)
    else
      let ids := splitOnColon last
      match hexParse (ids.getD 0 ""), hexParse (ids.getD 1 "") with
      | some _, some _ =>
        let ev0 := [Ev.line ("Using libusb v" ++ toString p.vMajor ++ "." ++
          toString p.vMinor ++ "." ++ toString p.vMicro ++ "." ++ toString p.vNano)]
        if p.initRet < 0 then
          (ev0, p.initRet)
        else
          match test_device p.dev with
          | (evs, PyResult.ok _) => (ev0 ++ evs, 0)
          | (evs, PyResult.exn) => (ev0 ++ evs ++ [Ev.err "Traceback"], 1)
      | _, _ => ([Ev.err "Traceback"], 1)

/-- A device whose every oracle call fails: open succeeds but all transfers
return -1 and no BOS descriptor is available. -/
def baseDevice : Device where
  openOk := true
  busNumber := 1
  portRet := 1
  portNumbers := [1]
  speedRet := 3
  devDescRet := 0
  bLength := 18
  bDeviceClass := 0
  idVendor := 0x2886
  idProduct := 0x0802
  bcdDevice := 0x0100
  iManufacturer := 0
  iProduct := 0
  iSerialNumber := 0
  strAscii := fun _ => ⟨-1, []⟩
  ctrl := fun _ => ⟨-1, []⟩
  getStringDesc := fun _ _ _ => ⟨-1, []⟩
  bosOk := false
  bosCaps := []
  usb20ExtAttrs := fun _ => none
  ssCapFields := fun _ => none
  containerIdBytes := fun _ => none

/-- An 18-byte OS String Descriptor: signature, vendor code 0x42, pad 0. -/
def sampleOsString : List Nat := ms_os_desc_string ++ [0x42, 0x00]

/-- A gateway that answers every two-phase read the tool performs: OS string
(declared length 0x12, vendor code 0x42), Extended Compat ID (total length
16), and MS OS 2.0 set (total length 30). -/
def sampleCtrl : CtrlReq → Xfer := fun c =>
  if c = osStringReq 4 then ⟨4, [0x12, 0x03, 0x4D, 0x00]⟩
  else if c = osStringReq 0x12 then ⟨0x12, sampleOsString⟩
  else if c = vendorReq 0x42 0x0004 8 then ⟨8, [16, 0, 0, 0, 0, 1, 4, 0]⟩
  else if c = vendorReq 0x42 0x0004 16 then ⟨16, List.replicate 16 0⟩
  else if c = vendorReq 0x42 0x0007 10 then ⟨10, [0, 0, 0, 0, 0, 0, 0, 0, 30, 0]⟩
  else if c = vendorReq 0x42 0x0007 30 then ⟨30, List.replicate 30 1⟩
  else ⟨-1, []⟩

def sampleDevice : Device := { baseDevice with ctrl := sampleCtrl }

/-- The declared length of the OS String Descriptor: byte 0 of the 4-byte
header read. -/
def osStringDeclaredLength (dev : Device) : Nat :=
  byteAt (fillBuf 4 (dev.ctrl (osStringReq 4)).data) 0

/-- A gateway whose OS String Descriptor declares length 0x10 = 16, one short
of covering the vendor-code offset. -/
def shortOsStringCtrl : CtrlReq → Xfer := fun c =>
  if c = osStringReq 4 then ⟨4, [0x10, 0x03, 0x4D, 0x00]⟩
  else if c = osStringReq 0x10 then ⟨0x10, ms_os_desc_string⟩
  else ⟨-1, []⟩

def shortOsStringDevice : Device := { baseDevice with ctrl := shortOsStringCtrl }

/-- A gateway whose OS String Descriptor is valid but carries vendor code
0x00. -/
def zeroVcCtrl : CtrlReq → Xfer := fun c =>
  if c = osStringReq 4 then ⟨4, [0x12, 0x03, 0x4D, 0x00]⟩
  else if c = osStringReq 0x12 then ⟨0x12, ms_os_desc_string ++ [0x00, 0x00]⟩
  else ⟨-1, []⟩

def zeroVcDevice : Device := { baseDevice with ctrl := zeroVcCtrl }

/-- A gateway whose Compat ID and MS OS 2.0 header reads succeed (declaring
total lengths 12 and 20) but whose full reads fail. -/
def shortPhase2Ctrl : CtrlReq → Xfer := fun c =>
  if c = vendorReq 1 0x0004 8 then ⟨8, [12, 0, 0, 0, 0, 0, 0, 0]⟩
  else if c = vendorReq 1 0x0007 10 then ⟨10, [0, 0, 0, 0, 0, 0, 0, 0, 20, 0]⟩
  else ⟨-1, []⟩

def shortPhase2Device : Device := { baseDevice with ctrl := shortPhase2Ctrl }

/-- A gateway whose first OS-string read is short (2 of 4 bytes) but whose
18-byte fallback returns a valid MSFT100 descriptor with vendor code 0xAB,
and which then answers the Extended Compat ID reads. -/
def rescueCtrl : CtrlReq → Xfer := fun c =>
  if c = osStringReq 4 then ⟨2, [0x12, 0x03]⟩
  else if c = vendorReq 0xAB 0x0004 8 then ⟨8, [16, 0, 0, 0, 0, 1, 4, 0]⟩
  else if c = vendorReq 0xAB 0x0004 16 then ⟨16, List.replicate 16 0⟩
  else ⟨-1, []⟩

def rescueDevice : Device :=
  { baseDevice with
    ctrl := rescueCtrl
    getStringDesc := fun _ _ _ => ⟨0x12, ms_os_desc_string ++ [0xAB, 0x00]⟩ }

/-- Raw bytes of BOS device-capability entries used as concrete inputs:
a Container ID entry (type 0x04), a USB 2.0 extension entry (type 0x02), and
platform-capability entries (type 0x05) carrying the MS OS 2.0 wire UUID, the
WebUSB wire UUID, and an unregistered all-zero UUID. -/
def capContainerId : List Nat :=
  [20, 0x10, 0x04, 0] ++
  [0xDF, 0x60, 0xDD, 0xD8, 0x89, 0x45, 0xC7, 0x4C,
   0x9C, 0xD2, 0x65, 0x9D, 0x9E, 0x64, 0x8A, 0x9F]

def capUsb20Ext : List Nat := [7, 0x10, 0x02, 0, 0x02, 0, 0]

def capMsOs20 : List Nat :=
  [28, 0x10, 0x05, 0] ++
  [0xDF, 0x60, 0xDD, 0xD8, 0x89, 0x45, 0xC7, 0x4C,
   0x9C, 0xD2, 0x65, 0x9D, 0x9E, 0x64, 0x8A, 0x9F] ++
  [0, 0, 3, 6] ++ [0xB2, 0] ++ [0x20, 0]

def capWebUsb : List Nat :=
  [24, 0x10, 0x05, 0] ++
  [0x38, 0xB6, 0x08, 0x34, 0xA9, 0x09, 0xA0, 0x47,
   0x8B, 0xFD, 0xA0, 0x76, 0x88, 0x15, 0xB6, 0x65] ++
  [0, 1] ++ [0x21, 0]

def capOtherPlatform : List Nat := [24, 0x10, 0x05, 0] ++ List.replicate 16 0 ++ [0, 0, 0, 0]

def bosDevice : Device :=
  { baseDevice with
    bosOk := true
    bosCaps := [capContainerId, capUsb20Ext]
    usb20ExtAttrs := fun _ => some 0x02
    ssCapFields := fun _ => some (3, 14, 1)
    containerIdBytes := fun cap => some ((cap.drop 4).take 16) }

/-- Devices whose first OS-string path fails and whose 18-byte fallback read
returns the 16-byte signature followed by two device-chosen bytes. -/
def msftDeviceA : Device :=
  { baseDevice with getStringDesc := fun _ _ _ => ⟨0x12, ms_os_desc_string ++ [0xAB, 0x00]⟩ }

def msftDeviceB : Device :=
  { baseDevice with getStringDesc := fun _ _ _ => ⟨0x12, ms_os_desc_string ++ [0xCD, 0x77]⟩ }

/-- A process whose device fails to open: libusb init succeeds, the device
open does not. -/
def noOpenDevice : Device := { baseDevice with openOk := false }

def procOk : Proc :=
  { initRet := 0, vMajor := 1, vMinor := 0, vMicro := 26, vNano := 11764, dev := noOpenDevice }

/-- A SuperSpeed device capability entry (type 0x03). -/
def capSs : List Nat := [10, 0x10, 0x03, 0, 0, 14, 0, 1, 0, 0]

/-- A device capability entry of an undefined type 0x07. -/
def capUnknown : List Nat := [3, 0x10, 0x07]

/-- Modelled from the spec: the byte-index groups of the canonical UUID
rendering, "[3,2,1,0]-[5,4]-[7,6]-[8,9]-[10..15]". -/
def uuid_spec_groups : List (List Nat) := [[3, 2, 1, 0], [5, 4], [7, 6], [8, 9],
  [10, 11, 12, 13, 14, 15]]

/-- Modelled from the spec: each group's bytes printed as uppercase hex,
groups hyphen-joined, braces around the whole. -/
def uuid_spec (uuid : List Nat) : String :=
  "\x7b" ++
    String.intercalate "-"
      (uuid_spec_groups.map (fun g => String.join (g.map (fun i => byteHex (byteAt uuid i))))) ++
  "\x7d"

/-- Whether an event is a resource acquisition or release. -/
def isRes (e : Ev) : Bool := e == Ev.close || e == Ev.getBos || e == Ev.freeBos

/-- The control transfers of a trace, in order. -/
def xfersOf (evs : List Ev) : List CtrlReq :=
  evs.filterMap fun e => match e with | Ev.xfer c => some c | _ => none

/-- Two control requests agree on bRequest, wValue and wIndex. -/
def sameParams (a b : CtrlReq) : Prop :=
  a.bRequest = b.bRequest ∧ a.wValue = b.wValue ∧ a.wIndex = b.wIndex

/-- A filled buffer has exactly the requested length. -/
theorem fillBuf_length (n : Nat) (d : List Nat) : (fillBuf n d).length = n := by
  simp [fillBuf]
  try omega

/-- Transfers issued inside the fallback path come from the caller's
accumulated trace: the fallback itself issues only a gsdReq. -/
theorem os_string_fallback_xfer (dev : Device) (ev : List Ev) (c : CtrlReq)
    (h : Ev.xfer c ∈ (os_string_fallback dev ev).1) : Ev.xfer c ∈ ev := by
  simp only [os_string_fallback] at h
  split at h
  all_goals simp_all

/-- Every control transfer issued while locating the vendor code targets
wIndex 0 (both phases are OS-string GET_DESCRIPTOR reads). -/
theorem gvc_xfer_wIndex (dev : Device) (c : CtrlReq)
    (h : Ev.xfer c ∈ (get_vendor_code_from_os_string_descriptor dev).1) :
    c.wIndex = 0 := by
  simp only [get_vendor_code_from_os_string_descriptor] at h
  split at h
  · split at h
    · split at h <;> simp_all [osStringReq] <;> try aesop
    · have := os_string_fallback_xfer _ _ _ h
      simp_all [osStringReq]
      try aesop
  · have := os_string_fallback_xfer _ _ _ h
    simp_all [osStringReq]
    try aesop

/-- The fallback path issues no control transfer of its own. -/
theorem os_string_fallback_xfersOf (dev : Device) (ev : List Ev) :
    xfersOf (os_string_fallback dev ev).1 = xfersOf ev := by
  simp only [os_string_fallback]
  split
  all_goals simp [xfersOf]

/-- Every control transfer issued by the Extended Compat ID phase uses the
obtained vendor code as bRequest and wIndex 0x0004. -/
theorem compat_xfer (dev : Device) (vc : Nat) (c : CtrlReq)
    (h : Ev.xfer c ∈ read_extended_compat_id dev vc) :
    c.bRequest = vc ∧ c.wIndex = 0x0004 := by
  simp only [read_extended_compat_id] at h
  split at h
  all_goals simp_all [vendorReq]
  all_goals try aesop

/-- Claim C2, counterexample: the spec's concrete example is byte-swapped.
Formatting the 16 raw bytes D8 DD 60 DF 45 89 4C C7 9C D2 65 9D 9E 64 8A 9F
yields a string whose first three groups are byte-reversed relative to the
claimed output, so it is not the MS OS 2.0 UUID string the claim names. -/
theorem c2_uuid_counterexample :
    uuid_to_string [0xD8, 0xDD, 0x60, 0xDF, 0x45, 0x89, 0x4C, 0xC7,
                    0x9C, 0xD2, 0x65, 0x9D, 0x9E, 0x64, 0x8A, 0x9F] =
      "\x7bDF60DDD8-8945-C74C-9CD2-659D9E648A9F\x7d" ∧
    uuid_to_string [0xD8, 0xDD, 0x60, 0xDF, 0x45, 0x89, 0x4C, 0xC7,
                    0x9C, 0xD2, 0x65, 0x9D, 0x9E, 0x64, 0x8A, 0x9F] ≠
      MS_OS_20_PLATFORM_CAPABILITY_UUID := by
  constructor
  · rfl
  · decide

/-- Claim C2, amended: uuid_to_string implements exactly the canonical
mixed-endian group permutation of the spec (refinement against the
spec-worded formatter), and the raw little-endian wire bytes of the two
registered UUIDs format to exactly the registered strings: bytes
DF 60 DD D8 89 45 C7 4C 9C D2 65 9D 9E 64 8A 9F yield the MS OS 2.0 UUID
string and bytes 38 B6 08 34 A9 09 A0 47 8B FD A0 76 88 15 B6 65 yield the
WebUSB UUID string. -/
theorem c2_uuid_format :
    (∀ uuid : List Nat, uuid_to_string uuid = uuid_spec uuid) ∧
    uuid_to_string [0xDF, 0x60, 0xDD, 0xD8, 0x89, 0x45, 0xC7, 0x4C,
                    0x9C, 0xD2, 0x65, 0x9D, 0x9E, 0x64, 0x8A, 0x9F] =
      MS_OS_20_PLATFORM_CAPABILITY_UUID ∧
    uuid_to_string [0x38, 0xB6, 0x08, 0x34, 0xA9, 0x09, 0xA0, 0x47,
                    0x8B, 0xFD, 0xA0, 0x76, 0x88, 0x15, 0xB6, 0x65] =
      WEBUSB_PLATFORM_CAPABILITY_UUID := by
  refine ⟨fun uuid => ?_, rfl, rfl⟩
  simp [uuid_to_string, uuid_spec, uuid_spec_groups, String.intercalate,
    String.intercalate.go, String.join, String.append_assoc]

/-- Claim C9: when the first OS-string read succeeds and the re-fetch at the
declared length returns exactly that many bytes, the fixed-offset extraction
desc[0x10] raises (IndexError in the source, exn here) exactly when the
declared length is 16 or less; it is defined precisely under the precondition
declared length >= 17, in which case the vendor code is the byte at offset
16 of the re-fetched buffer. -/
theorem c9_vendor_code_offset_guard (dev : Device)
    (h1 : (dev.ctrl (osStringReq 4)).ret = 4)
    (h2 : (dev.ctrl (osStringReq (osStringDeclaredLength dev))).ret =
          (osStringDeclaredLength dev : Int)) :
    ((get_vendor_code_from_os_string_descriptor dev).2 = PyResult.exn ↔
      osStringDeclaredLength dev < 17) ∧
    (17 ≤ osStringDeclaredLength dev →
      (get_vendor_code_from_os_string_descriptor dev).2 =
        PyResult.ok (some ((fillBuf (osStringDeclaredLength dev)
          (dev.ctrl (osStringReq (osStringDeclaredLength dev))).data).getD 16 0))) := by
  simp only [osStringDeclaredLength] at h2 ⊢
  simp only [get_vendor_code_from_os_string_descriptor, h1, if_pos, h2, if_true]
  by_cases hL : MS_OS_DESC_VENDOR_CODE_OFFSET <
      (fillBuf (byteAt (fillBuf 4 (dev.ctrl (osStringReq 4)).data) 0)
        (dev.ctrl (osStringReq (byteAt (fillBuf 4 (dev.ctrl (osStringReq 4)).data) 0))).data).length
  · rw [dif_pos hL]
    have hlen := fillBuf_length (byteAt (fillBuf 4 (dev.ctrl (osStringReq 4)).data) 0)
      (dev.ctrl (osStringReq (byteAt (fillBuf 4 (dev.ctrl (osStringReq 4)).data) 0))).data
    constructor
    · simp
      rw [hlen] at hL
      simp [MS_OS_DESC_VENDOR_CODE_OFFSET] at hL
      omega
    · intro _
      simp only [Prod.snd, PyResult.ok.injEq, Option.some.injEq]
      rw [List.getD_eq_getElem?_getD, List.getElem?_eq_getElem (by omega)]
      simp [List.get_eq_getElem, MS_OS_DESC_VENDOR_CODE_OFFSET]
  · rw [dif_neg hL]
    have hlen := fillBuf_length (byteAt (fillBuf 4 (dev.ctrl (osStringReq 4)).data) 0)
      (dev.ctrl (osStringReq (byteAt (fillBuf 4 (dev.ctrl (osStringReq 4)).data) 0))).data
    rw [hlen] at hL
    simp [MS_OS_DESC_VENDOR_CODE_OFFSET] at hL
    constructor
    · simp
      omega
    · intro hc
      omega

/-- Witness for C9 at a device declaring OS-string length 16: the hypotheses
hold and the extraction raises. -/
theorem c9_witness :
    (shortOsStringDevice.ctrl (osStringReq 4)).ret = 4 ∧
    (shortOsStringDevice.ctrl (osStringReq (osStringDeclaredLength shortOsStringDevice))).ret =
      (osStringDeclaredLength shortOsStringDevice : Int) ∧
    (((get_vendor_code_from_os_string_descriptor shortOsStringDevice).2 = PyResult.exn ↔
       osStringDeclaredLength shortOsStringDevice < 17) ∧
     (17 ≤ osStringDeclaredLength shortOsStringDevice →
       (get_vendor_code_from_os_string_descriptor shortOsStringDevice).2 =
         PyResult.ok (some ((fillBuf (osStringDeclaredLength shortOsStringDevice)
           (shortOsStringDevice.ctrl
             (osStringReq (osStringDeclaredLength shortOsStringDevice))).data).getD 16 0)))) :=
  ⟨rfl, rfl,
   c9_vendor_code_offset_guard shortOsStringDevice rfl rfl⟩

/-- Claim C10: a successfully extracted vendor code of 0x00 is
indistinguishable from an absent one — the MS OS 1.0 reader prints the
not-found message and never issues a wIndex 0x0004 request, because the code
is tested for truthiness. -/
theorem c10_zero_vendor_code (dev : Device)
    (h : (get_vendor_code_from_os_string_descriptor dev).2 = PyResult.ok (some 0)) :
    (read_ms_os_10_descriptors dev).1 =
      [Ev.line "\nReading MS OS 1.0 Descriptors\n"] ++
        (get_vendor_code_from_os_string_descriptor dev).1 ++
        [Ev.line "    OS String Descriptor is not found"] ∧
    (read_ms_os_10_descriptors dev).2 = PyResult.ok () ∧
    ∀ c : CtrlReq, Ev.xfer c ∈ (read_ms_os_10_descriptors dev).1 → c.wIndex ≠ 0x0004 := by
  have htr : (read_ms_os_10_descriptors dev) =
      ([Ev.line "\nReading MS OS 1.0 Descriptors\n"] ++
        (get_vendor_code_from_os_string_descriptor dev).1 ++
        [Ev.line "    OS String Descriptor is not found"], PyResult.ok ()) := by
    simp only [read_ms_os_10_descriptors, h]
  refine ⟨by rw [htr], by rw [htr], ?_⟩
  intro c hc
  rw [htr] at hc
  simp only [List.mem_append, List.mem_singleton] at hc
  rcases hc with (hc | hc) | hc
  · simp at hc
  · have := gvc_xfer_wIndex dev c hc
    omega
  · simp at hc

/-- Claim C1: in each two-phase descriptor read, exactly two control
transfers are issued, the second requests exactly the length decoded from the
first response (byte 0 for the OS string; LE32 at offset 0 of the 8-byte
Compat ID header; LE16 at offset 8 of the 10-byte MS OS 2.0 header), and both
transfers carry identical bRequest, wValue and wIndex. -/
theorem c1_two_phase (d1 d2 d3 : Device) (vc2 vc3 : Nat)
    (h1 : (d1.ctrl (osStringReq 4)).ret = 4)
    (h2 : (d2.ctrl (vendorReq vc2 0x0004 8)).ret = 8)
    (h3 : (d3.ctrl (vendorReq vc3 0x0007 10)).ret = 10) :
    (xfersOf (get_vendor_code_from_os_string_descriptor d1).1 =
       [osStringReq 4, osStringReq (osStringDeclaredLength d1)] ∧
     sameParams (osStringReq 4) (osStringReq (osStringDeclaredLength d1)) ∧
     (osStringReq (osStringDeclaredLength d1)).wLength = osStringDeclaredLength d1) ∧
    (xfersOf (read_extended_compat_id d2 vc2) =
       [vendorReq vc2 0x0004 8,
        vendorReq vc2 0x0004 (le32At (fillBuf 8 (d2.ctrl (vendorReq vc2 0x0004 8)).data) 0)] ∧
     sameParams (vendorReq vc2 0x0004 8)
       (vendorReq vc2 0x0004 (le32At (fillBuf 8 (d2.ctrl (vendorReq vc2 0x0004 8)).data) 0)) ∧
     (vendorReq vc2 0x0004 (le32At (fillBuf 8 (d2.ctrl (vendorReq vc2 0x0004 8)).data) 0)).wLength =
       le32At (fillBuf 8 (d2.ctrl (vendorReq vc2 0x0004 8)).data) 0) ∧
    (xfersOf (read_ms_os_20_descriptors d3 vc3) =
       [vendorReq vc3 0x0007 10,
        vendorReq vc3 0x0007 (le16At (fillBuf 10 (d3.ctrl (vendorReq vc3 0x0007 10)).data) 8)] ∧
     sameParams (vendorReq vc3 0x0007 10)
       (vendorReq vc3 0x0007 (le16At (fillBuf 10 (d3.ctrl (vendorReq vc3 0x0007 10)).data) 8)) ∧
     (vendorReq vc3 0x0007 (le16At (fillBuf 10 (d3.ctrl (vendorReq vc3 0x0007 10)).data) 8)).wLength =
       le16At (fillBuf 10 (d3.ctrl (vendorReq vc3 0x0007 10)).data) 8) := by
  refine ⟨⟨?_, ⟨rfl, rfl, rfl⟩, rfl⟩, ⟨?_, ⟨rfl, rfl, rfl⟩, rfl⟩, ⟨?_, ⟨rfl, rfl, rfl⟩, rfl⟩⟩
  · simp only [get_vendor_code_from_os_string_descriptor, h1, if_true, osStringDeclaredLength]
    split
    · split
      · simp [xfersOf]
      · simp [xfersOf]
    · rw [os_string_fallback_xfersOf]
      simp [xfersOf]
  · simp only [read_extended_compat_id, h2]
    simp only [ne_eq, not_true_eq_false, if_false, reduceIte]
    split
    · simp [xfersOf]
    · simp [xfersOf]
  · simp only [read_ms_os_20_descriptors, h3]
    simp only [ne_eq, not_true_eq_false, if_false, reduceIte]
    split
    · simp [xfersOf]
    · simp [xfersOf]

/-- Witness for C1 at the sample device, vendor code 0x42. -/
theorem c1_witness :
    ((sampleDevice.ctrl (osStringReq 4)).ret = 4 ∧
     (sampleDevice.ctrl (vendorReq 0x42 0x0004 8)).ret = 8 ∧
     (sampleDevice.ctrl (vendorReq 0x42 0x0007 10)).ret = 10) ∧
    ((xfersOf (get_vendor_code_from_os_string_descriptor sampleDevice).1 =
        [osStringReq 4, osStringReq (osStringDeclaredLength sampleDevice)] ∧
      sameParams (osStringReq 4) (osStringReq (osStringDeclaredLength sampleDevice)) ∧
      (osStringReq (osStringDeclaredLength sampleDevice)).wLength =
        osStringDeclaredLength sampleDevice) ∧
     (xfersOf (read_extended_compat_id sampleDevice 0x42) =
        [vendorReq 0x42 0x0004 8,
         vendorReq 0x42 0x0004
           (le32At (fillBuf 8 (sampleDevice.ctrl (vendorReq 0x42 0x0004 8)).data) 0)] ∧
      sameParams (vendorReq 0x42 0x0004 8)
        (vendorReq 0x42 0x0004
          (le32At (fillBuf 8 (sampleDevice.ctrl (vendorReq 0x42 0x0004 8)).data) 0)) ∧
      (vendorReq 0x42 0x0004
        (le32At (fillBuf 8 (sampleDevice.ctrl (vendorReq 0x42 0x0004 8)).data) 0)).wLength =
        le32At (fillBuf 8 (sampleDevice.ctrl (vendorReq 0x42 0x0004 8)).data) 0) ∧
     (xfersOf (read_ms_os_20_descriptors sampleDevice 0x42) =
        [vendorReq 0x42 0x0007 10,
         vendorReq 0x42 0x0007
           (le16At (fillBuf 10 (sampleDevice.ctrl (vendorReq 0x42 0x0007 10)).data) 8)] ∧
      sameParams (vendorReq 0x42 0x0007 10)
        (vendorReq 0x42 0x0007
          (le16At (fillBuf 10 (sampleDevice.ctrl (vendorReq 0x42 0x0007 10)).data) 8)) ∧
      (vendorReq 0x42 0x0007
        (le16At (fillBuf 10 (sampleDevice.ctrl (vendorReq 0x42 0x0007 10)).data) 8)).wLength =
        le16At (fillBuf 10 (sampleDevice.ctrl (vendorReq 0x42 0x0007 10)).data) 8)) :=
  ⟨⟨rfl, rfl, rfl⟩,
   c1_two_phase sampleDevice sampleDevice sampleDevice 0x42 0x42
     rfl rfl rfl⟩

/-- Claim C4, counterexample: for the OS String Descriptor chain the claim
fails — at a device whose first OS-string read returns only 2 of the 4
requested bytes, the reader does not terminate: it falls through to the
18-byte fallback, dumps the rescued descriptor (so it does not print only a
not-found message; the not-found line never appears), returns vendor code
0xAB, and the dependent Extended Compat ID transfers at wIndex 0x0004 are
still issued. -/
theorem c4_counterexample :
    (rescueDevice.ctrl (osStringReq 4)).ret = 2 ∧
    (get_vendor_code_from_os_string_descriptor rescueDevice).2 = PyResult.ok (some 0xAB) ∧
    Ev.line "    OS String Descriptor is not found" ∉ (read_ms_os_10_descriptors rescueDevice).1 ∧
    Ev.dump (fillBuf MS_OS_DESC_STRING_LENGTH
      (rescueDevice.getStringDesc MS_OS_DESC_STRING_INDEX 0 MS_OS_DESC_STRING_LENGTH).data) ∈
      (read_ms_os_10_descriptors rescueDevice).1 ∧
    Ev.xfer (vendorReq 0xAB 0x0004 8) ∈ (read_ms_os_10_descriptors rescueDevice).1 ∧
    Ev.xfer (vendorReq 0xAB 0x0004 16) ∈ (read_ms_os_10_descriptors rescueDevice).1 := by
  refine ⟨rfl, rfl, by decide, by decide, by decide, by decide⟩

/-- Claim C4, amended: a short read at any phase of the Compat ID or MS OS
2.0 chain ends that chain cleanly with only the informational not-found line,
without issuing the dependent second transfer, and a run whose MS OS 1.0
chain ended cleanly still reaches the BOS sibling chain; for the OS String
Descriptor chain a short read does not by itself end the chain — it falls
through to the 18-byte fallback — and only when that fallback also fails does
the reader return no vendor code, print only the not-found message, and issue
no dependent wIndex 0x0004 transfer. -/
theorem c4_short_read (d1 d2 d3 d4 d5 d6 d7 : Device) (v1 v2 v3 v4 : Nat)
    (h1 : (d1.ctrl (vendorReq v1 0x0004 8)).ret ≠ 8)
    (h2 : (d2.ctrl (vendorReq v2 0x0004 8)).ret = 8)
    (h2b : (d2.ctrl (vendorReq v2 0x0004
             (le32At (fillBuf 8 (d2.ctrl (vendorReq v2 0x0004 8)).data) 0))).ret ≠
           (le32At (fillBuf 8 (d2.ctrl (vendorReq v2 0x0004 8)).data) 0 : Int))
    (h3 : (d3.ctrl (vendorReq v3 0x0007 10)).ret ≠ 10)
    (h4 : (d4.ctrl (vendorReq v4 0x0007 10)).ret = 10)
    (h4b : (d4.ctrl (vendorReq v4 0x0007
             (le16At (fillBuf 10 (d4.ctrl (vendorReq v4 0x0007 10)).data) 8))).ret ≠
           (le16At (fillBuf 10 (d4.ctrl (vendorReq v4 0x0007 10)).data) 8 : Int))
    (h5o : d5.openOk = true)
    (h5d : 0 ≤ d5.devDescRet)
    (h5m : (read_ms_os_10_descriptors d5).2 = PyResult.ok ())
    (h6 : (d6.ctrl (osStringReq 4)).ret ≠ 4)
    (h6b : ¬ ((d6.getStringDesc MS_OS_DESC_STRING_INDEX 0 MS_OS_DESC_STRING_LENGTH).ret =
            (MS_OS_DESC_STRING_LENGTH : Int) ∧
          memcmp ms_os_desc_string
            (fillBuf MS_OS_DESC_STRING_LENGTH
              (d6.getStringDesc MS_OS_DESC_STRING_INDEX 0 MS_OS_DESC_STRING_LENGTH).data) 16 = 0))
    (h7 : (d7.ctrl (osStringReq 4)).ret ≠ 4) :
    read_extended_compat_id d1 v1 =
      [Ev.line "  Reading Extended Compat ID OS Feature Descriptor",
       Ev.xfer (vendorReq v1 0x0004 8),
       Ev.line "    Extended Compat ID OS Feature Descriptor is not found"] ∧
    read_extended_compat_id d2 v2 =
      [Ev.line "  Reading Extended Compat ID OS Feature Descriptor",
       Ev.xfer (vendorReq v2 0x0004 8),
       Ev.xfer (vendorReq v2 0x0004 (le32At (fillBuf 8 (d2.ctrl (vendorReq v2 0x0004 8)).data) 0)),
       Ev.line "    Extended Compat ID OS Feature Descriptor is not found"] ∧
    read_ms_os_20_descriptors d3 v3 =
      [Ev.line "\nReading MS OS 2.0 descriptors\n",
       Ev.line "  Reading MS OS 2.0 descriptor set header",
       Ev.xfer (vendorReq v3 0x0007 10),
       Ev.line "  Not found"] ∧
    read_ms_os_20_descriptors d4 v4 =
      [Ev.line "\nReading MS OS 2.0 descriptors\n",
       Ev.line "  Reading MS OS 2.0 descriptor set header",
       Ev.xfer (vendorReq v4 0x0007 10),
       Ev.dump (fillBuf 10 (d4.ctrl (vendorReq v4 0x0007 10)).data),
       Ev.xfer (vendorReq v4 0x0007 (le16At (fillBuf 10 (d4.ctrl (vendorReq v4 0x0007 10)).data) 8)),
       Ev.line "  Not found"] ∧
    ((test_device d5).2 = PyResult.ok 0 ∧
     Ev.line "\nReading BOS descriptor: " ∈ (test_device d5).1) ∧
    ((get_vendor_code_from_os_string_descriptor d6).2 = PyResult.ok none ∧
     (read_ms_os_10_descriptors d6).1 =
       [Ev.line "\nReading MS OS 1.0 Descriptors\n",
        Ev.line "  Reading OS String Descriptor",
        Ev.xfer (osStringReq 4),
        Ev.gsdReq MS_OS_DESC_STRING_INDEX 0 MS_OS_DESC_STRING_LENGTH,
        Ev.line "    OS String Descriptor is not found"] ∧
     (read_ms_os_10_descriptors d6).2 = PyResult.ok () ∧
     (∀ c : CtrlReq, Ev.xfer c ∈ (read_ms_os_10_descriptors d6).1 → c.wIndex ≠ 0x0004)) ∧
    get_vendor_code_from_os_string_descriptor d7 =
      os_string_fallback d7 [Ev.line "  Reading OS String Descriptor", Ev.xfer (osStringReq 4)] := by
  refine ⟨?_, ?_, ?_, ?_, ?_, ?_, ?_⟩
  · simp only [read_extended_compat_id]
    rw [if_pos h1]
    simp
  · simp only [read_extended_compat_id, h2]
    simp only [ne_eq, not_true_eq_false, if_false, reduceIte]
    rw [if_pos h2b]
    simp
  · simp only [read_ms_os_20_descriptors]
    rw [if_pos h3]
    simp
  · simp only [read_ms_os_20_descriptors, h4]
    simp only [ne_eq, not_true_eq_false, if_false, reduceIte]
    rw [if_pos h4b]
    simp
  · have hopen : ¬ d5.openOk = false := by simp [h5o]
    rcases hm : read_ms_os_10_descriptors d5 with ⟨evs10, res⟩
    have hres : res = PyResult.ok () := by rw [hm] at h5m; exact h5m
    subst hres
    simp only [test_device, if_neg hopen, if_neg (not_lt.mpr h5d), hm]
    split
    · exact ⟨rfl, by simp⟩
    · exact ⟨rfl, by simp⟩
  · have hgvc : get_vendor_code_from_os_string_descriptor d6 =
        ([Ev.line "  Reading OS String Descriptor", Ev.xfer (osStringReq 4),
          Ev.gsdReq MS_OS_DESC_STRING_INDEX 0 MS_OS_DESC_STRING_LENGTH], PyResult.ok none) := by
      simp only [get_vendor_code_from_os_string_descriptor]
      rw [if_neg h6]
      simp only [os_string_fallback]
      rw [if_neg h6b]
      simp
    have htr : read_ms_os_10_descriptors d6 =
        ([Ev.line "\nReading MS OS 1.0 Descriptors\n",
          Ev.line "  Reading OS String Descriptor",
          Ev.xfer (osStringReq 4),
          Ev.gsdReq MS_OS_DESC_STRING_INDEX 0 MS_OS_DESC_STRING_LENGTH,
          Ev.line "    OS String Descriptor is not found"], PyResult.ok ()) := by
      simp only [read_ms_os_10_descriptors, hgvc]
      simp
    refine ⟨by rw [hgvc], by rw [htr], by rw [htr], ?_⟩
    intro c hc
    rw [htr] at hc
    simp only [Prod.fst] at hc
    simp at hc
    subst hc
    decide
  · simp only [get_vendor_code_from_os_string_descriptor]
    rw [if_neg h7]

/-- Witness for C4: short reads at each phase on concrete devices, including
an OS-string chain whose fallback also fails and one whose short first read
diverts to the fallback. -/
theorem c4_witness :
    ((baseDevice.ctrl (vendorReq 1 0x0004 8)).ret ≠ 8 ∧
     (shortPhase2Device.ctrl (vendorReq 1 0x0004 8)).ret = 8 ∧
     (shortPhase2Device.ctrl (vendorReq 1 0x0004
       (le32At (fillBuf 8 (shortPhase2Device.ctrl (vendorReq 1 0x0004 8)).data) 0))).ret ≠
       (le32At (fillBuf 8 (shortPhase2Device.ctrl (vendorReq 1 0x0004 8)).data) 0 : Int) ∧
     (baseDevice.ctrl (vendorReq 1 0x0007 10)).ret ≠ 10 ∧
     (shortPhase2Device.ctrl (vendorReq 1 0x0007 10)).ret = 10 ∧
     (shortPhase2Device.ctrl (vendorReq 1 0x0007
       (le16At (fillBuf 10 (shortPhase2Device.ctrl (vendorReq 1 0x0007 10)).data) 8))).ret ≠
       (le16At (fillBuf 10 (shortPhase2Device.ctrl (vendorReq 1 0x0007 10)).data) 8 : Int) ∧
     baseDevice.openOk = true ∧ 0 ≤ baseDevice.devDescRet ∧
     (read_ms_os_10_descriptors baseDevice).2 = PyResult.ok () ∧
     (baseDevice.ctrl (osStringReq 4)).ret ≠ 4 ∧
     ¬ ((baseDevice.getStringDesc MS_OS_DESC_STRING_INDEX 0 MS_OS_DESC_STRING_LENGTH).ret =
           (MS_OS_DESC_STRING_LENGTH : Int) ∧
         memcmp ms_os_desc_string
           (fillBuf MS_OS_DESC_STRING_LENGTH
             (baseDevice.getStringDesc MS_OS_DESC_STRING_INDEX 0
               MS_OS_DESC_STRING_LENGTH).data) 16 = 0) ∧
     (rescueDevice.ctrl (osStringReq 4)).ret ≠ 4) ∧
    (read_extended_compat_id baseDevice 1 =
      [Ev.line "  Reading Extended Compat ID OS Feature Descriptor",
       Ev.xfer (vendorReq 1 0x0004 8),
       Ev.line "    Extended Compat ID OS Feature Descriptor is not found"] ∧
    read_extended_compat_id shortPhase2Device 1 =
      [Ev.line "  Reading Extended Compat ID OS Feature Descriptor",
       Ev.xfer (vendorReq 1 0x0004 8),
       Ev.xfer (vendorReq 1 0x0004
         (le32At (fillBuf 8 (shortPhase2Device.ctrl (vendorReq 1 0x0004 8)).data) 0)),
       Ev.line "    Extended Compat ID OS Feature Descriptor is not found"] ∧
    read_ms_os_20_descriptors baseDevice 1 =
      [Ev.line "\nReading MS OS 2.0 descriptors\n",
       Ev.line "  Reading MS OS 2.0 descriptor set header",
       Ev.xfer (vendorReq 1 0x0007 10),
       Ev.line "  Not found"] ∧
    read_ms_os_20_descriptors shortPhase2Device 1 =
      [Ev.line "\nReading MS OS 2.0 descriptors\n",
       Ev.line "  Reading MS OS 2.0 descriptor set header",
       Ev.xfer (vendorReq 1 0x0007 10),
       Ev.dump (fillBuf 10 (shortPhase2Device.ctrl (vendorReq 1 0x0007 10)).data),
       Ev.xfer (vendorReq 1 0x0007
         (le16At (fillBuf 10 (shortPhase2Device.ctrl (vendorReq 1 0x0007 10)).data) 8)),
       Ev.line "  Not found"] ∧
    ((test_device baseDevice).2 = PyResult.ok 0 ∧
     Ev.line "\nReading BOS descriptor: " ∈ (test_device baseDevice).1) ∧
    ((get_vendor_code_from_os_string_descriptor baseDevice).2 = PyResult.ok none ∧
     (read_ms_os_10_descriptors baseDevice).1 =
       [Ev.line "\nReading MS OS 1.0 Descriptors\n",
        Ev.line "  Reading OS String Descriptor",
        Ev.xfer (osStringReq 4),
        Ev.gsdReq MS_OS_DESC_STRING_INDEX 0 MS_OS_DESC_STRING_LENGTH,
        Ev.line "    OS String Descriptor is not found"] ∧
     (read_ms_os_10_descriptors baseDevice).2 = PyResult.ok () ∧
     (∀ c : CtrlReq, Ev.xfer c ∈ (read_ms_os_10_descriptors baseDevice).1 →
       c.wIndex ≠ 0x0004)) ∧
    get_vendor_code_from_os_string_descriptor rescueDevice =
      os_string_fallback rescueDevice
        [Ev.line "  Reading OS String Descriptor", Ev.xfer (osStringReq 4)]) :=
  ⟨by decide,
   c4_short_read baseDevice shortPhase2Device baseDevice shortPhase2Device baseDevice
     baseDevice rescueDevice
     1 1 1 1 (by decide) rfl (by decide) (by decide) rfl (by decide)
     rfl (by decide) rfl (by decide) (by decide) (by decide)⟩

/-- Claim C6, counterexample: the executed BOS walk dispatches only on
capability type 0x05 (the print_device_cap call in the source is commented
out), so a Container ID entry and a USB 2.0 extension entry produce no output
at all — the same empty branch, with no typed-accessor decode — even though
print_device_cap, which is never invoked, would print the Container ID. -/
theorem c6_counterexample :
    bos_cap_step bosDevice capContainerId = [] ∧
    bos_cap_step bosDevice capUsb20Ext = [] ∧
    print_device_cap bosDevice capContainerId =
      [Ev.line ("    Container ID:\n      " ++ uuid_to_string ((capContainerId.drop 4).take 16))] ∧
    (Ev.line ("    Container ID:\n      " ++ uuid_to_string ((capContainerId.drop 4).take 16)) ∉
      (test_device bosDevice).1) ∧
    Ev.line "    USB 2.0 extension:" ∉ (test_device bosDevice).1 := by
  refine ⟨by decide, by decide, by decide, by decide, by decide⟩

/-- Claim C6, amended: in the executed walk only type 0x05 produces output,
dispatching deterministically on the formatted UUID into three distinct
branches (MS OS 2.0 with reader invocation, WebUSB print-only, unrecognized
UUID print); every other capability type is silently skipped and never breaks
the walk; the unused print_device_cap helper implements the per-type branches
the claim describes. -/
theorem c6_capability_dispatch (dev : Device)
    (cap capU capS capC capP capX cap5m cap5w cap5o : List Nat)
    (a s1 s2 s3 t : Nat) (cid : List Nat)
    (h : byteAt cap 2 ≠ 0x05)
    (hU : byteAt capU 2 = 0x02) (hUa : dev.usb20ExtAttrs capU = some a)
    (hS : byteAt capS 2 = 0x03) (hSa : dev.ssCapFields capS = some (s1, s2, s3))
    (hC : byteAt capC 2 = 0x04) (hCa : dev.containerIdBytes capC = some cid)
    (hP : byteAt capP 2 = 0x05)
    (hX : byteAt capX 2 = t)
    (ht2 : t ≠ 0x02) (ht3 : t ≠ 0x03) (ht4 : t ≠ 0x04) (ht5 : t ≠ 0x05)
    (hm : byteAt cap5m 2 = 0x05)
    (hmu : uuid_to_string (capUuid cap5m) = MS_OS_20_PLATFORM_CAPABILITY_UUID)
    (hw : byteAt cap5w 2 = 0x05)
    (hwu : uuid_to_string (capUuid cap5w) = WEBUSB_PLATFORM_CAPABILITY_UUID)
    (ho : byteAt cap5o 2 = 0x05)
    (hou1 : uuid_to_string (capUuid cap5o) ≠ MS_OS_20_PLATFORM_CAPABILITY_UUID)
    (hou2 : uuid_to_string (capUuid cap5o) ≠ WEBUSB_PLATFORM_CAPABILITY_UUID) :
    bos_cap_step dev cap = [] ∧
    bos_cap_step dev cap5m =
      [Ev.line "  MS OS 2.0 Platform Capability Descriptor",
       Ev.line ("    UUID: " ++ uuid_to_string (capUuid cap5m)),
       Ev.line ("    VendorCode: 0x" ++ byteHex (byteAt cap5m 26))] ++
      read_ms_os_20_descriptors dev (byteAt cap5m 26) ∧
    bos_cap_step dev cap5w =
      [Ev.line "  WebUSB Platform Capability UUID",
       Ev.line ("    UUID: " ++ uuid_to_string (capUuid cap5w)),
       Ev.line ("    VendorCode: 0x" ++ byteHex (byteAt cap5w 22))] ∧
    bos_cap_step dev cap5o = [Ev.line ("    UUID: " ++ uuid_to_string (capUuid cap5o))] ∧
    print_device_cap dev capU =
      [Ev.line "    USB 2.0 extension:",
       Ev.line ("      attributes             : " ++ hexPad 2 a)] ∧
    print_device_cap dev capS =
      [Ev.line "    USB 3.0 capabilities:",
       Ev.line ("      attributes             : " ++ hexPad 2 s1),
       Ev.line ("      supported speeds       : " ++ hexPad 4 s2),
       Ev.line ("      supported functionality: " ++ hexPad 2 s3)] ∧
    print_device_cap dev capC =
      [Ev.line ("    Container ID:\n      " ++ uuid_to_string cid)] ∧
    print_device_cap dev capP = [Ev.line "    Platform Capability Descriptor"] ∧
    print_device_cap dev capX =
      [Ev.line ("    Unknown BOS device capability " ++ byteHex t ++ ":")] := by
  refine ⟨?_, ?_, ?_, ?_, ?_, ?_, ?_, ?_, ?_⟩
  · simp only [bos_cap_step, if_neg h]
  · simp only [bos_cap_step, hm, hmu, if_pos rfl, reduceIte]
  · simp only [bos_cap_step, hw, reduceIte, hwu]
    rfl
  · simp only [bos_cap_step, ho, reduceIte]
    rw [if_neg hou1, if_neg hou2]
  · simp [print_device_cap, LIBUSB_BT_USB_2_0_EXTENSION, hU, hUa]
  · simp [print_device_cap, LIBUSB_BT_USB_2_0_EXTENSION,
      LIBUSB_BT_SS_USB_DEVICE_CAPABILITY, hS, hSa]
  · simp [print_device_cap, LIBUSB_BT_USB_2_0_EXTENSION,
      LIBUSB_BT_SS_USB_DEVICE_CAPABILITY, LIBUSB_BT_CONTAINER_ID, hC, hCa]
  · simp [print_device_cap, LIBUSB_BT_USB_2_0_EXTENSION,
      LIBUSB_BT_SS_USB_DEVICE_CAPABILITY, LIBUSB_BT_CONTAINER_ID, hP]
  · simp [print_device_cap, LIBUSB_BT_USB_2_0_EXTENSION,
      LIBUSB_BT_SS_USB_DEVICE_CAPABILITY, LIBUSB_BT_CONTAINER_ID, hX, ht2, ht3, ht4, ht5]

/-- Witness for C6 at concrete capability entries on the BOS device. -/
theorem c6_witness :
    (byteAt capContainerId 2 ≠ 0x05 ∧
     byteAt capUsb20Ext 2 = 0x02 ∧ bosDevice.usb20ExtAttrs capUsb20Ext = some 0x02 ∧
     byteAt capSs 2 = 0x03 ∧ bosDevice.ssCapFields capSs = some (3, 14, 1) ∧
     byteAt capContainerId 2 = 0x04 ∧
     bosDevice.containerIdBytes capContainerId = some ((capContainerId.drop 4).take 16) ∧
     byteAt capOtherPlatform 2 = 0x05 ∧
     byteAt capUnknown 2 = 0x07 ∧
     byteAt capMsOs20 2 = 0x05 ∧
     uuid_to_string (capUuid capMsOs20) = MS_OS_20_PLATFORM_CAPABILITY_UUID ∧
     byteAt capWebUsb 2 = 0x05 ∧
     uuid_to_string (capUuid capWebUsb) = WEBUSB_PLATFORM_CAPABILITY_UUID ∧
     byteAt capOtherPlatform 2 = 0x05 ∧
     uuid_to_string (capUuid capOtherPlatform) ≠ MS_OS_20_PLATFORM_CAPABILITY_UUID ∧
     uuid_to_string (capUuid capOtherPlatform) ≠ WEBUSB_PLATFORM_CAPABILITY_UUID) ∧
    (bos_cap_step bosDevice capContainerId = [] ∧
     bos_cap_step bosDevice capMsOs20 =
       [Ev.line "  MS OS 2.0 Platform Capability Descriptor",
        Ev.line ("    UUID: " ++ uuid_to_string (capUuid capMsOs20)),
        Ev.line ("    VendorCode: 0x" ++ byteHex (byteAt capMsOs20 26))] ++
       read_ms_os_20_descriptors bosDevice (byteAt capMsOs20 26) ∧
     bos_cap_step bosDevice capWebUsb =
       [Ev.line "  WebUSB Platform Capability UUID",
        Ev.line ("    UUID: " ++ uuid_to_string (capUuid capWebUsb)),
        Ev.line ("    VendorCode: 0x" ++ byteHex (byteAt capWebUsb 22))] ∧
     bos_cap_step bosDevice capOtherPlatform =
       [Ev.line ("    UUID: " ++ uuid_to_string (capUuid capOtherPlatform))] ∧
     print_device_cap bosDevice capUsb20Ext =
       [Ev.line "    USB 2.0 extension:",
        Ev.line ("      attributes             : " ++ hexPad 2 0x02)] ∧
     print_device_cap bosDevice capSs =
       [Ev.line "    USB 3.0 capabilities:",
        Ev.line ("      attributes             : " ++ hexPad 2 3),
        Ev.line ("      supported speeds       : " ++ hexPad 4 14),
        Ev.line ("      supported functionality: " ++ hexPad 2 1)] ∧
     print_device_cap bosDevice capContainerId =
       [Ev.line ("    Container ID:\n      " ++
          uuid_to_string ((capContainerId.drop 4).take 16))] ∧
     print_device_cap bosDevice capOtherPlatform =
       [Ev.line "    Platform Capability Descriptor"] ∧
     print_device_cap bosDevice capUnknown =
       [Ev.line ("    Unknown BOS device capability " ++ byteHex 0x07 ++ ":")]) :=
  ⟨by decide,
   c6_capability_dispatch bosDevice capContainerId capUsb20Ext capSs capContainerId
     capOtherPlatform capUnknown capMsOs20 capWebUsb capOtherPlatform
     0x02 3 14 1 0x07 ((capContainerId.drop 4).take 16)
     (by decide) rfl rfl rfl rfl rfl rfl rfl rfl
     (by decide) (by decide) (by decide) (by decide)
     rfl rfl rfl rfl rfl
     (by decide) (by decide)⟩

/-- Claim C7, counterexample: the fallback comparison covers only the first
16 bytes (sizeof of the 16-byte signature array), so two devices whose
18-byte responses differ at byte 16 (the vendor code) are both confirmed
valid — validity cannot be equality of all 18 bytes against one fixed
signature buffer. -/
theorem c7_counterexample :
    (get_vendor_code_from_os_string_descriptor msftDeviceA).2 = PyResult.ok (some 0xAB) ∧
    (get_vendor_code_from_os_string_descriptor msftDeviceB).2 = PyResult.ok (some 0xCD) ∧
    fillBuf MS_OS_DESC_STRING_LENGTH (msftDeviceA.getStringDesc 0xEE 0 0x12).data ≠
      fillBuf MS_OS_DESC_STRING_LENGTH (msftDeviceB.getStringDesc 0xEE 0 0x12).data ∧
    byteAt (fillBuf MS_OS_DESC_STRING_LENGTH (msftDeviceA.getStringDesc 0xEE 0 0x12).data) 16 ≠
      byteAt (fillBuf MS_OS_DESC_STRING_LENGTH (msftDeviceB.getStringDesc 0xEE 0 0x12).data) 16 := by
  refine ⟨by decide, by decide, by decide, by decide⟩

theorem memcmpAux_congr (a b b2 : List Nat) (fuel : Nat) :
    ∀ i : Nat, (∀ j : Nat, j < i + fuel → byteAt b j = byteAt b2 j) →
    memcmpAux a b i fuel = memcmpAux a b2 i fuel := by
  induction fuel with
  | zero => intro i h; rfl
  | succ n ih =>
    intro i h
    simp only [memcmpAux]
    rw [h i (by omega)]
    split
    · exact ih (i + 1) (fun j hj => h j (by omega))
    · rfl

/-- Claim C7, amended: on the fallback path the reader fetches 18 bytes and
confirms validity exactly when the read returned 18 bytes and the first 16
bytes equal the 16-byte MSFT100 signature buffer (memcmp over
sizeof(ms_os_desc_string) = 16); bytes 16 and 17 (vendor code and pad) are
never compared, and the fallback is reached whenever the first 4-byte read
does not return 4. -/
theorem c7_fallback_signature (dev d4 : Device) (ev : List Ev) (b b2 : List Nat)
    (hagree : ∀ j : Nat, j < 16 → byteAt b j = byteAt b2 j)
    (hno4 : (d4.ctrl (osStringReq 4)).ret ≠ 4) :
    ((os_string_fallback dev ev).2 =
        PyResult.ok (some (byteAt
          (fillBuf MS_OS_DESC_STRING_LENGTH
            (dev.getStringDesc MS_OS_DESC_STRING_INDEX 0 MS_OS_DESC_STRING_LENGTH).data)
          MS_OS_DESC_VENDOR_CODE_OFFSET)) ↔
      ((dev.getStringDesc MS_OS_DESC_STRING_INDEX 0 MS_OS_DESC_STRING_LENGTH).ret =
          (MS_OS_DESC_STRING_LENGTH : Int) ∧
       memcmp ms_os_desc_string
         (fillBuf MS_OS_DESC_STRING_LENGTH
           (dev.getStringDesc MS_OS_DESC_STRING_INDEX 0 MS_OS_DESC_STRING_LENGTH).data) 16 = 0)) ∧
    memcmp ms_os_desc_string b 16 = memcmp ms_os_desc_string b2 16 ∧
    get_vendor_code_from_os_string_descriptor d4 =
      os_string_fallback d4 [Ev.line "  Reading OS String Descriptor", Ev.xfer (osStringReq 4)] := by
  refine ⟨?_, ?_, ?_⟩
  · simp only [os_string_fallback]
    split
    · rename_i hcond
      constructor
      · intro _
        exact hcond
      · intro _
        rfl
    · rename_i hcond
      constructor
      · intro hcontra
        simp at hcontra
      · intro hc
        exact absurd hc hcond
  · exact memcmpAux_congr ms_os_desc_string b b2 16 0 (fun j hj => hagree j (by omega))
  · simp only [get_vendor_code_from_os_string_descriptor]
    rw [if_neg hno4]

/-- Witness for C7 at the fallback device with vendor code 0xAB. -/
theorem c7_witness :
    ((∀ j : Nat, j < 16 →
       byteAt (List.replicate 16 0 ++ [1]) j = byteAt (List.replicate 16 0 ++ [2]) j) ∧
     (msftDeviceA.ctrl (osStringReq 4)).ret ≠ 4) ∧
    (((os_string_fallback msftDeviceA []).2 =
        PyResult.ok (some (byteAt
          (fillBuf MS_OS_DESC_STRING_LENGTH
            (msftDeviceA.getStringDesc MS_OS_DESC_STRING_INDEX 0 MS_OS_DESC_STRING_LENGTH).data)
          MS_OS_DESC_VENDOR_CODE_OFFSET)) ↔
      ((msftDeviceA.getStringDesc MS_OS_DESC_STRING_INDEX 0 MS_OS_DESC_STRING_LENGTH).ret =
          (MS_OS_DESC_STRING_LENGTH : Int) ∧
       memcmp ms_os_desc_string
         (fillBuf MS_OS_DESC_STRING_LENGTH
           (msftDeviceA.getStringDesc MS_OS_DESC_STRING_INDEX 0 MS_OS_DESC_STRING_LENGTH).data) 16 = 0)) ∧
    memcmp ms_os_desc_string (List.replicate 16 0 ++ [1]) 16 =
      memcmp ms_os_desc_string (List.replicate 16 0 ++ [2]) 16 ∧
    get_vendor_code_from_os_string_descriptor msftDeviceA =
      os_string_fallback msftDeviceA
        [Ev.line "  Reading OS String Descriptor", Ev.xfer (osStringReq 4)]) :=
  ⟨by decide,
   c7_fallback_signature msftDeviceA msftDeviceA []
     (List.replicate 16 0 ++ [1]) (List.replicate 16 0 ++ [2])
     (by decide) (by decide)⟩

theorem countP_res_fallback (dev : Device) (ev : List Ev) :
    (os_string_fallback dev ev).1.countP (fun e => isRes e) =
      ev.countP (fun e => isRes e) := by
  simp only [os_string_fallback]
  split
  · simp [List.countP_append, List.countP_cons, isRes]
  · simp [List.countP_append, List.countP_cons, isRes]

theorem countP_res_gvc (dev : Device) :
    (get_vendor_code_from_os_string_descriptor dev).1.countP (fun e => isRes e) = 0 := by
  simp only [get_vendor_code_from_os_string_descriptor]
  split
  · split
    · split
      · simp [List.countP_append, List.countP_cons, isRes]
      · simp [List.countP_append, List.countP_cons, isRes]
    · rw [countP_res_fallback]
      simp [List.countP_cons, isRes]
  · rw [countP_res_fallback]
    simp [List.countP_cons, isRes]

theorem countP_res_compat (dev : Device) (vc : Nat) :
    (read_extended_compat_id dev vc).countP (fun e => isRes e) = 0 := by
  simp only [read_extended_compat_id]
  split
  · simp [List.countP_append, List.countP_cons, isRes]
  · split
    · simp [List.countP_append, List.countP_cons, isRes]
    · simp [List.countP_append, List.countP_cons, isRes]

theorem countP_res_ms20 (dev : Device) (vc : Nat) :
    (read_ms_os_20_descriptors dev vc).countP (fun e => isRes e) = 0 := by
  simp only [read_ms_os_20_descriptors]
  split
  · simp [List.countP_append, List.countP_cons, isRes]
  · split
    · simp [List.countP_append, List.countP_cons, isRes]
    · simp [List.countP_append, List.countP_cons, isRes]

theorem countP_res_ms10 (dev : Device) :
    (read_ms_os_10_descriptors dev).1.countP (fun e => isRes e) = 0 := by
  simp only [read_ms_os_10_descriptors]
  split
  · rw [List.countP_append, countP_res_gvc]
    simp [isRes]
  · rw [List.countP_append, List.countP_append, countP_res_gvc]
    simp [isRes]
  · rw [List.countP_append, List.countP_append, countP_res_gvc]
    simp [isRes]
  · rw [List.countP_append, List.countP_append, countP_res_gvc, countP_res_compat]
    simp [isRes]

theorem countP_res_step (dev : Device) (cap : List Nat) :
    (bos_cap_step dev cap).countP (fun e => isRes e) = 0 := by
  simp only [bos_cap_step]
  split
  · split
    · rw [List.countP_append, countP_res_ms20]
      simp [isRes]
    · split
      · simp [List.countP_cons, isRes]
      · simp [List.countP_cons, isRes]
  · simp

theorem countP_res_flatten (dev : Device) (caps : List (List Nat)) :
    ((caps.map (bos_cap_step dev)).flatten).countP (fun e => isRes e) = 0 := by
  induction caps with
  | nil => simp
  | cons c cs ih => simp [List.countP_append, countP_res_step, ih]

theorem countP_res_props (dev : Device) :
    (device_props_events dev).countP (fun e => isRes e) = 0 := by
  simp only [device_props_events]
  split
  · simp [List.countP_append, List.countP_cons, isRes]
  · simp [List.countP_append, List.countP_cons, isRes]

theorem countP_res_devdesc (dev : Device) :
    (devdesc_print_events dev).countP (fun e => isRes e) = 0 := by
  simp [devdesc_print_events, List.countP_cons, isRes]

theorem countP_res_strread (dev : Device) (key : String) (idx : Nat) :
    (string_desc_read dev key idx).countP (fun e => isRes e) = 0 := by
  simp only [string_desc_read]
  split
  · simp
  · split
    · simp [List.countP_append, List.countP_cons, isRes]
    · simp [List.countP_append, List.countP_cons, isRes]

theorem countP_res_strings (dev : Device) :
    (string_desc_events dev).countP (fun e => isRes e) = 0 := by
  simp only [string_desc_events]
  rw [List.countP_append, List.countP_append, List.countP_append,
    countP_res_strread, countP_res_strread, countP_res_strread]
  simp [isRes]

theorem count_res_zero (l : List Ev) (h : l.countP (fun e => isRes e) = 0)
    (a : Ev) (ha : isRes a = true) : l.count a = 0 := by
  have hle : l.count a ≤ l.countP (fun e => isRes e) := by
    rw [List.count]
    exact List.countP_mono_left (fun e hme hpe => by
      have : e = a := by simpa using hpe
      rw [this]
      exact ha)
  omega

end WebUsb

namespace WebUsb

theorem isRes_line (s : String) : isRes (Ev.line s) = false := rfl

theorem isRes_err (s : String) : isRes (Ev.err s) = false := rfl

theorem isRes_transportErr (r : Int) : isRes (Ev.transportErr r) = false := rfl

theorem isRes_close : isRes Ev.close = true := rfl

theorem isRes_getBos : isRes Ev.getBos = true := rfl

theorem isRes_freeBos : isRes Ev.freeBos = true := rfl

/-- Claim C8: on every path through test_device the handle close event occurs
exactly once after a successful open (and the open-failure path never closes);
the BOS structure is acquired and released exactly once precisely on the paths
that reach a successful BOS fetch, and never otherwise — no leak, no double
free, including the uncaught-exception path out of the MS OS 1.0 reader. -/
theorem c8_resource_release (dev : Device) :
    (test_device dev).1.count Ev.close = (if dev.openOk then 1 else 0) ∧
    (test_device dev).1.count Ev.getBos =
      (if dev.openOk ∧ 0 ≤ dev.devDescRet ∧
          (read_ms_os_10_descriptors dev).2 = PyResult.ok () ∧ dev.bosOk then 1 else 0) ∧
    (test_device dev).1.count Ev.freeBos =
      (if dev.openOk ∧ 0 ≤ dev.devDescRet ∧
          (read_ms_os_10_descriptors dev).2 = PyResult.ok () ∧ dev.bosOk then 1 else 0) := by
  have hcz : ∀ (l : List Ev), l.countP (fun e => isRes e) = 0 →
      l.count Ev.close = 0 ∧ l.count Ev.getBos = 0 ∧ l.count Ev.freeBos = 0 := by
    intro l h
    exact ⟨count_res_zero l h Ev.close (by decide), count_res_zero l h Ev.getBos (by decide),
      count_res_zero l h Ev.freeBos (by decide)⟩
  have pe1 : (device_props_events dev ++
      [Ev.line "\nReading device descriptor:"]).countP (fun e => isRes e) = 0 := by
    rw [List.countP_append, countP_res_props]
    simp [isRes_line, List.countP_cons]
  have pe2 : (device_props_events dev ++ [Ev.line "\nReading device descriptor:"] ++
      devdesc_print_events dev ++ string_desc_events dev).countP (fun e => isRes e) = 0 := by
    rw [List.countP_append, List.countP_append, pe1, countP_res_devdesc, countP_res_strings]
  cases ho : dev.openOk with
  | false =>
    simp [test_device, ho, List.count_cons]
  | true =>
    have hopen : ¬ dev.openOk = false := by simp [ho]
    by_cases hd : dev.devDescRet < 0
    · have htd : test_device dev =
          (device_props_events dev ++ [Ev.line "\nReading device descriptor:"] ++
            [Ev.transportErr dev.devDescRet, Ev.close], PyResult.ok (-1)) := by
        simp only [test_device, if_neg hopen, if_pos hd]
      rw [htd]
      have hz := hcz _ pe1
      refine ⟨?_, ?_, ?_⟩
      · rw [List.count_append, hz.1]
        simp [ho, List.count_cons]
      · rw [List.count_append, hz.2.1]
        simp [List.count_cons, hd, Int.not_le.mpr hd]
      · rw [List.count_append, hz.2.2]
        simp [List.count_cons, hd, Int.not_le.mpr hd]
    · rcases hm : read_ms_os_10_descriptors dev with ⟨evs10, res⟩
      have hz10 : evs10.countP (fun e => isRes e) = 0 := by
        have := countP_res_ms10 dev
        rw [hm] at this
        exact this
      cases res with
      | exn =>
        have htd : test_device dev =
            (device_props_events dev ++ [Ev.line "\nReading device descriptor:"] ++
              devdesc_print_events dev ++ string_desc_events dev ++ evs10 ++ [Ev.close],
             PyResult.exn) := by
          simp only [test_device, if_neg hopen, if_neg hd, hm]
        rw [htd]
        have hz := hcz _ pe2
        have hz1 := hcz _ hz10
        have hcond : ¬ (dev.openOk ∧ 0 ≤ dev.devDescRet ∧
            (read_ms_os_10_descriptors dev).2 = PyResult.ok () ∧ dev.bosOk) := by
          rw [hm]
          simp
        refine ⟨?_, ?_, ?_⟩
        · rw [List.count_append, List.count_append, hz.1, hz1.1]
          simp [ho, List.count_cons]
        · rw [List.count_append, List.count_append, hz.2.1, hz1.2.1]
          simp [List.count_cons, if_neg hcond]
        · rw [List.count_append, List.count_append, hz.2.2, hz1.2.2]
          simp [List.count_cons, if_neg hcond]
      | ok u =>
        cases u
        have hcond : (dev.openOk ∧ 0 ≤ dev.devDescRet ∧
            (read_ms_os_10_descriptors dev).2 = PyResult.ok () ∧ dev.bosOk) ↔
            (dev.bosOk = true) := by
          rw [hm]
          simp [ho, Int.not_lt.mp hd]
        by_cases hb : dev.bosOk
        · have htd : test_device dev =
              (device_props_events dev ++ [Ev.line "\nReading device descriptor:"] ++
                devdesc_print_events dev ++ string_desc_events dev ++ evs10 ++
                [Ev.line "\nReading BOS descriptor: "] ++
                [Ev.getBos, Ev.line (toString dev.bosCaps.length)] ++
                (dev.bosCaps.map (bos_cap_step dev)).flatten ++
                [Ev.freeBos, Ev.close], PyResult.ok 0) := by
            simp only [test_device, if_neg hopen, if_neg hd, hm, if_pos hb]
          rw [htd]
          have hz := hcz _ pe2
          have hz1 := hcz _ hz10
          have hzf := hcz _ (countP_res_flatten dev dev.bosCaps)
          refine ⟨?_, ?_, ?_⟩
          · rw [List.count_append, List.count_append, List.count_append, List.count_append,
              List.count_append, hz.1, hz1.1, hzf.1]
            simp [ho, List.count_cons]
          · rw [List.count_append, List.count_append, List.count_append, List.count_append,
              List.count_append, hz.2.1, hz1.2.1, hzf.2.1]
            simp [List.count_cons, hcond, hb, Int.not_lt.mp hd]
          · rw [List.count_append, List.count_append, List.count_append, List.count_append,
              List.count_append, hz.2.2, hz1.2.2, hzf.2.2]
            simp [List.count_cons, hcond, hb, Int.not_lt.mp hd]
        · have htd : test_device dev =
              (device_props_events dev ++ [Ev.line "\nReading device descriptor:"] ++
                devdesc_print_events dev ++ string_desc_events dev ++ evs10 ++
                [Ev.line "\nReading BOS descriptor: "] ++
                [Ev.line "no descriptor", Ev.close], PyResult.ok 0) := by
            simp only [test_device, if_neg hopen, if_neg hd, hm, if_neg hb]
          rw [htd]
          have hz := hcz _ pe2
          have hz1 := hcz _ hz10
          refine ⟨?_, ?_, ?_⟩
          · rw [List.count_append, List.count_append, List.count_append, hz.1, hz1.1]
            simp [ho, List.count_cons]
          · rw [List.count_append, List.count_append, List.count_append, hz.2.1, hz1.2.1]
            simp [List.count_cons, hcond, hb, Int.not_lt.mp hd]
          · rw [List.count_append, List.count_append, List.count_append, hz.2.2, hz1.2.2]
            simp [List.count_cons, hcond, hb, Int.not_lt.mp hd]

/-- Claim C3, counterexample: with well-formed arguments and a device that
cannot be opened, the process exits 0 (test_device's -1 is discarded by main),
contradicting "non-zero if the device cannot be opened"; and on malformed
arguments the usage message goes to standard output (an Ev.line, never an
Ev.err), contradicting "usage message is printed to standard error". -/
theorem c3_counterexample :
    (main ["webusb.py", "2886:0802"] procOk).2 = 0 ∧
    Ev.err "  Failed.\n" ∈ (main ["webusb.py", "2886:0802"] procOk).1 ∧
    (main ["webusb.py"] procOk).2 = 1 ∧
    (main ["webusb.py"] procOk).1 = [Ev.line (usageOf "webusb.py")] ∧
    (∀ s : String, Ev.err s ∉ (main ["webusb.py"] procOk).1) := by
  have htr : (main ["webusb.py"] procOk).1 = [Ev.line (usageOf "webusb.py")] := by decide
  refine ⟨by decide, by decide, by decide, htr, ?_⟩
  intro s hs
  rw [htr] at hs
  simp at hs

/-- Claim C3, amended: the process exits 0 on any run whose arguments parse
and whose libusb init succeeds and which raises no uncaught exception, even
when the device cannot be opened (the inspection's -1 is discarded); it exits
1 on malformed arguments with the usage message printed to standard output;
and a negative init return is passed to sys.exit. -/
theorem c3_exit_codes (argv : List String) (p : Proc)
    (hargc : argv.length = 2)
    (hcolon : containsColon (argv.getLastD "") = true)
    (hvid : (hexParse ((splitOnColon (argv.getLastD "")).getD 0 "")).isSome)
    (hpid : (hexParse ((splitOnColon (argv.getLastD "")).getD 1 "")).isSome)
    (hinit : 0 ≤ p.initRet)
    (hdone : (test_device p.dev).2 ≠ PyResult.exn) :
    (main argv p).2 = 0 ∧
    (∀ argv2 : List String, argv2.length ≤ 1 →
      (main argv2 p).2 = 1 ∧ (main argv2 p).1 = [Ev.line (usageOf (argv2.headD ""))]) ∧
    (∀ q : Proc, q.initRet < 0 → (main argv q).2 = q.initRet) := by
  have hnot1 : ¬ (argv.length < 2 ∨ 3 < argv.length) := by omega
  have hnot2 : ¬ (argv.length = 3 ∧ argv.getD 1 "" ≠ "-d") := by omega
  have hnotc : ¬ ¬ (containsColon (argv.getLastD "") = true) := fun hc => hc hcolon
  refine ⟨?_, ?_, ?_⟩
  · simp only [main, if_neg hnot1, if_neg hnot2, if_neg hnotc]
    rcases hv : hexParse ((splitOnColon (argv.getLastD "")).getD 0 "") with _ | v
    · rw [hv] at hvid
      simp at hvid
    rcases hp2 : hexParse ((splitOnColon (argv.getLastD "")).getD 1 "") with _ | w
    · rw [hp2] at hpid
      simp at hpid
    simp only [hv, hp2]
    rw [if_neg (Int.not_lt.mpr hinit)]
    rcases ht : test_device p.dev with ⟨evs, res⟩
    cases res with
    | ok r => simp
    | exn =>
      rw [ht] at hdone
      simp at hdone
  · intro argv2 h2
    have : argv2.length < 2 ∨ 3 < argv2.length := by omega
    constructor
    · simp only [main, if_pos this]
    · simp only [main, if_pos this]
  · intro q hq
    simp only [main, if_neg hnot1, if_neg hnot2, if_neg hnotc]
    rcases hv : hexParse ((splitOnColon (argv.getLastD "")).getD 0 "") with _ | v
    · rw [hv] at hvid
      simp at hvid
    rcases hp2 : hexParse ((splitOnColon (argv.getLastD "")).getD 1 "") with _ | w
    · rw [hp2] at hpid
      simp at hpid
    simp only [hv, hp2]
    rw [if_pos hq]

/-- Witness for C3 at the well-formed invocation of the unopenable device. -/
theorem c3_witness :
    ((["webusb.py", "2886:0802"] : List String).length = 2 ∧
     containsColon ((["webusb.py", "2886:0802"] : List String).getLastD "") = true ∧
     (hexParse ((splitOnColon ((["webusb.py", "2886:0802"] : List String).getLastD "")).getD 0 "")).isSome ∧
     (hexParse ((splitOnColon ((["webusb.py", "2886:0802"] : List String).getLastD "")).getD 1 "")).isSome ∧
     0 ≤ procOk.initRet ∧
     (test_device procOk.dev).2 ≠ PyResult.exn) ∧
    ((main ["webusb.py", "2886:0802"] procOk).2 = 0 ∧
     (∀ argv2 : List String, argv2.length ≤ 1 →
       (main argv2 procOk).2 = 1 ∧
       (main argv2 procOk).1 = [Ev.line (usageOf (argv2.headD ""))]) ∧
     (∀ q : Proc, q.initRet < 0 → (main ["webusb.py", "2886:0802"] q).2 = q.initRet)) :=
  ⟨by decide,
   c3_exit_codes ["webusb.py", "2886:0802"] procOk
     rfl rfl rfl rfl (by decide) (by decide)⟩

/-- Claim C5, counterexample: at a device answering nothing, the reader does
skip the MS OS 1.0 chain, but the message it prints is
"    OS String Descriptor is not found"; the string the claim quotes,
"OS String Descriptor not found", appears nowhere in the trace, not even as a
substring of any printed line. -/
theorem c5_counterexample :
    (get_vendor_code_from_os_string_descriptor baseDevice).2 = PyResult.ok none ∧
    (read_ms_os_10_descriptors baseDevice).1 =
      [Ev.line "\nReading MS OS 1.0 Descriptors\n",
       Ev.line "  Reading OS String Descriptor",
       Ev.xfer (osStringReq 4),
       Ev.gsdReq 0xEE 0 0x12,
       Ev.line "    OS String Descriptor is not found"] ∧
    ((read_ms_os_10_descriptors baseDevice).1.all fun e =>
      match e with
      | Ev.line s => !(decide (("OS String Descriptor not found").data <:+: s.data))
      | _ => true) = true := by
  refine ⟨by decide, by decide, by decide⟩

/-- Claim C5, amended: a wIndex 0x0004 transfer appears in the MS OS 1.0
trace only when the vendor-code step returned a nonzero code, and that code is
its bRequest; when no vendor code is obtained the reader prints
"    OS String Descriptor is not found" (with "is") and issues no wIndex
0x0004 transfer at all. -/
theorem c5_vendor_code_gating (d1 d2 : Device) (c : CtrlReq)
    (h1 : Ev.xfer c ∈ (read_ms_os_10_descriptors d1).1)
    (h2 : c.wIndex = 0x0004)
    (h3 : (get_vendor_code_from_os_string_descriptor d2).2 = PyResult.ok none) :
    (∃ vc : Nat, vc ≠ 0 ∧
      (get_vendor_code_from_os_string_descriptor d1).2 = PyResult.ok (some vc) ∧
      c.bRequest = vc) ∧
    (Ev.line "    OS String Descriptor is not found" ∈ (read_ms_os_10_descriptors d2).1 ∧
     ∀ c2 : CtrlReq, Ev.xfer c2 ∈ (read_ms_os_10_descriptors d2).1 → c2.wIndex ≠ 0x0004) := by
  constructor
  · cases hres : (get_vendor_code_from_os_string_descriptor d1).2 with
    | exn =>
        have htr : (read_ms_os_10_descriptors d1).1 =
            [Ev.line "\nReading MS OS 1.0 Descriptors\n"] ++
              (get_vendor_code_from_os_string_descriptor d1).1 := by
          simp only [read_ms_os_10_descriptors, hres]
        rw [htr] at h1
        simp only [List.mem_append] at h1
        rcases h1 with h1 | h1
        · simp at h1
        · have := gvc_xfer_wIndex d1 c h1
          omega
    | ok vcOpt =>
      match vcOpt with
      | none =>
        have htr : (read_ms_os_10_descriptors d1).1 =
            [Ev.line "\nReading MS OS 1.0 Descriptors\n"] ++
              (get_vendor_code_from_os_string_descriptor d1).1 ++
              [Ev.line "    OS String Descriptor is not found"] := by
          simp only [read_ms_os_10_descriptors, hres]
        rw [htr] at h1
        simp only [List.mem_append, List.mem_singleton] at h1
        rcases h1 with (h1 | h1) | h1
        · simp at h1
        · have := gvc_xfer_wIndex d1 c h1
          omega
        · simp at h1
      | some 0 =>
        have htr : (read_ms_os_10_descriptors d1).1 =
            [Ev.line "\nReading MS OS 1.0 Descriptors\n"] ++
              (get_vendor_code_from_os_string_descriptor d1).1 ++
              [Ev.line "    OS String Descriptor is not found"] := by
          simp only [read_ms_os_10_descriptors, hres]
        rw [htr] at h1
        simp only [List.mem_append, List.mem_singleton] at h1
        rcases h1 with (h1 | h1) | h1
        · simp at h1
        · have := gvc_xfer_wIndex d1 c h1
          omega
        · simp at h1
      | some (vc + 1) =>
        have htr : (read_ms_os_10_descriptors d1).1 =
            [Ev.line "\nReading MS OS 1.0 Descriptors\n"] ++
              (get_vendor_code_from_os_string_descriptor d1).1 ++
              read_extended_compat_id d1 (vc + 1) := by
          simp only [read_ms_os_10_descriptors, hres]
        rw [htr] at h1
        simp only [List.mem_append] at h1
        rcases h1 with (h1 | h1) | h1
        · simp at h1
        · have := gvc_xfer_wIndex d1 c h1
          omega
        · have := compat_xfer d1 (vc + 1) c h1
          exact ⟨vc + 1, by omega, rfl, this.1⟩
  · have htr : (read_ms_os_10_descriptors d2).1 =
        [Ev.line "\nReading MS OS 1.0 Descriptors\n"] ++
          (get_vendor_code_from_os_string_descriptor d2).1 ++
          [Ev.line "    OS String Descriptor is not found"] := by
      simp only [read_ms_os_10_descriptors, h3]
    constructor
    · rw [htr]
      simp
    · intro c2 hc2
      rw [htr] at hc2
      simp only [List.mem_append, List.mem_singleton] at hc2
      rcases hc2 with (hc2 | hc2) | hc2
      · simp at hc2
      · have := gvc_xfer_wIndex d2 c2 hc2
        omega
      · simp at hc2

/-- Witness for C5 at the sample device (which does issue the Extended Compat
ID request) and the dead device (which obtains no vendor code). -/
theorem c5_witness :
    (Ev.xfer (vendorReq 0x42 0x0004 8) ∈ (read_ms_os_10_descriptors sampleDevice).1 ∧
     (vendorReq 0x42 0x0004 8).wIndex = 0x0004 ∧
     (get_vendor_code_from_os_string_descriptor baseDevice).2 = PyResult.ok none) ∧
    ((∃ vc : Nat, vc ≠ 0 ∧
       (get_vendor_code_from_os_string_descriptor sampleDevice).2 = PyResult.ok (some vc) ∧
       (vendorReq 0x42 0x0004 8).bRequest = vc) ∧
     (Ev.line "    OS String Descriptor is not found" ∈ (read_ms_os_10_descriptors baseDevice).1 ∧
      ∀ c2 : CtrlReq, Ev.xfer c2 ∈ (read_ms_os_10_descriptors baseDevice).1 →
        c2.wIndex ≠ 0x0004)) :=
  ⟨by decide,
   c5_vendor_code_gating sampleDevice baseDevice (vendorReq 0x42 0x0004 8)
     (by decide) rfl rfl⟩

/-- Witness for C10 at a device whose OS String Descriptor carries vendor
code 0x00. -/
theorem c10_witness :
    (get_vendor_code_from_os_string_descriptor zeroVcDevice).2 = PyResult.ok (some 0) ∧
    ((read_ms_os_10_descriptors zeroVcDevice).1 =
      [Ev.line "\nReading MS OS 1.0 Descriptors\n"] ++
        (get_vendor_code_from_os_string_descriptor zeroVcDevice).1 ++
        [Ev.line "    OS String Descriptor is not found"] ∧
     (read_ms_os_10_descriptors zeroVcDevice).2 = PyResult.ok () ∧
     ∀ c : CtrlReq, Ev.xfer c ∈ (read_ms_os_10_descriptors zeroVcDevice).1 →
       c.wIndex ≠ 0x0004) :=
  ⟨rfl, c10_zero_vendor_code zeroVcDevice rfl⟩

end WebUsb
